import Mathlib

/-!
# Verification of the libdivecomputer core (Garmin FIT decoder, field cache,
# device enumeration, McLean/Oceans S1 backends)

A shallow embedding, in Lean 4, of the C sources of the subsurface/libdc
repository snapshot.  Machine integers are modelled as `Nat`/`Int` with
explicit truncation where the C semantics wraps; C `double` values that the
code produces by exact divisions (depth in mm / 1000.0, pressure in cbar /
100.0, ...) are modelled as exact rationals `ℚ`; fallible operations return
a status code next to their result.

Conventions used throughout:
 * names follow the C sources (`dc_field_get`, `flush_pending_record`, ...);
 * a sample callback is modelled by accumulating the emitted samples in a
   list, in emission order; the C `garmin->callback != NULL` test becomes the
   `hasCallback` flag of the parser state;
 * fixed-size C arrays become lists of the corresponding length, updated
   with `List.set` and read with `List.getD`;
 * reads that the C performs past the end of the supplied buffer (undefined
   behaviour, always leading to an error return or caught by the outer
   `len > datasize` check) read `0` in the model.
-/

set_option maxHeartbeats 1000000
set_option maxRecDepth 4000

namespace LibDC

/-- Status codes (`dc_status_t`), the closed error taxonomy of §7. -/
inductive DcStatus where
  | success
  | done
  | unsupported
  | invalidargs
  | nomemory
  | nodevice
  | noaccess
  | io
  | timeout
  | protocol
  | cancelled
  | nack
  | dataformat
  deriving DecidableEq, Repr

/-- Water type of `dc_salinity_t`. -/
inductive DcWater where
  | fresh
  | salt
  deriving DecidableEq, Repr

/-- Dive modes (`dc_divemode_t`); the zero-initialised value is `freedive`. -/
inductive DcDivemode where
  | freedive
  | gauge
  | oc
  | ccr
  deriving DecidableEq, Repr

/-- `dc_gasmix_t`: gas fractions, exact rationals standing in for C doubles. -/
structure DcGasmix where
  helium : ℚ := 0
  oxygen : ℚ := 0
  nitrogen : ℚ := 0
  deriving DecidableEq, Repr

/-- `dc_salinity_t`.  The Garmin handler stores the raw 32-bit pattern of the
FIT `FLOAT` field into `density`; the model keeps that bit pattern. -/
structure DcSalinity where
  kind : DcWater := .fresh
  density_bits : Nat := 0
  deriving DecidableEq, Repr

/-- The field types that `dc_field_get` (field-cache.c) dispatches on.
In C these are distinct values of the `dc_field_type_t` enum and the
`initialized` member is a bitset indexed by them; distinct enum values give
distinct bits, so the model tracks initialisation as a set (here: a list with
membership semantics) of field types. -/
inductive DcFieldType where
  | DIVETIME
  | MAXDEPTH
  | AVGDEPTH
  | ATMOSPHERIC
  | GASMIX_COUNT
  | GASMIX
  | SALINITY
  | DIVEMODE
  | TANK_COUNT
  | STRING
  deriving DecidableEq, Repr

def MAXGASES : Nat := 16
def MAXSTRINGS : Nat := 32

/-- `struct dc_field_cache` (field-cache.h).  A string slot is free when its
`desc` pointer is NULL; a used slot holds the static `desc` and the strdup'ed
`value`, modelled together as `some (desc, value)`. -/
structure DcFieldCache where
  initialized : List DcFieldType := []
  DIVETIME : Nat := 0
  MAXDEPTH : ℚ := 0
  AVGDEPTH : ℚ := 0
  ATMOSPHERIC : ℚ := 0
  DIVEMODE : DcDivemode := .freedive
  GASMIX_COUNT : Nat := 0
  SALINITY : DcSalinity := {}
  GASMIX : List DcGasmix := List.replicate MAXGASES {}
  strings : List (Option (String × String)) := List.replicate MAXSTRINGS none
  deriving DecidableEq, Repr

/-- The slot-filling loop of `dc_field_add_string`: put the pair in the first
free slot, `none` when every slot is taken (→ `DC_STATUS_INVALIDARGS`). -/
def addStringAux (desc value : String) :
    List (Option (String × String)) → Option (List (Option (String × String)))
  | [] => none
  | none :: rest => some (some (desc, value) :: rest)
  | some s :: rest => (addStringAux desc value rest).map (fun l => some s :: l)

/-- `dc_field_add_string` (field-cache.c).  Sets the STRING initialised bit
unconditionally, then fills the first free slot.  `strdup` failure
(`DC_STATUS_NOMEMORY`) is not modelled: allocation succeeds. -/
def dc_field_add_string (cache : DcFieldCache) (desc value : String) :
    DcStatus × DcFieldCache :=
  let cache := { cache with initialized := .STRING :: cache.initialized }
  match addStringAux desc value cache.strings with
  | some s => (.success, { cache with strings := s })
  | none => (.invalidargs, cache)

/-- `dc_field_add_string_fmt` formats and then delegates; the model's callers
format with Lean string operations and call `dc_field_add_string` directly. -/
def dc_field_add_string_fmt (cache : DcFieldCache) (desc value : String) :
    DcStatus × DcFieldCache :=
  dc_field_add_string cache desc value

/-- The value delivered through `dc_field_get`'s `void *value` out-pointer. -/
inductive DcFieldValue where
  | uint (n : Nat)
  | real (q : ℚ)
  | gasmix (g : DcGasmix)
  | salinity (s : DcSalinity)
  | divemode (m : DcDivemode)
  | str (desc value : String)
  deriving DecidableEq, Repr

/-- `dc_field_get_string` (field-cache.c). -/
def dc_field_get_string (cache : DcFieldCache) (idx : Nat) :
    DcStatus × Option DcFieldValue :=
  if idx < MAXSTRINGS then
    match cache.strings.getD idx none with
    | some (d, v) => (.success, some (.str d v))
    | none => (.unsupported, none)
  else (.unsupported, none)

/-- `dc_field_get` (field-cache.c lines 71-105).  The `value == NULL`
`DC_STATUS_INVALIDARGS` path is not modelled (the model always has an
out-value).  Note the `GASMIX` case: the index bound that is checked is
`MAXGASES`, not the cached `GASMIX_COUNT`. -/
def dc_field_get (cache : DcFieldCache) (ftype : DcFieldType) (flags : Nat) :
    DcStatus × Option DcFieldValue :=
  if ftype ∉ cache.initialized then (.unsupported, none)
  else
    match ftype with
    | .DIVETIME => (.success, some (.uint cache.DIVETIME))
    | .MAXDEPTH => (.success, some (.real cache.MAXDEPTH))
    | .AVGDEPTH => (.success, some (.real cache.AVGDEPTH))
    | .GASMIX_COUNT => (.success, some (.uint cache.GASMIX_COUNT))
    | .TANK_COUNT => (.success, some (.uint cache.GASMIX_COUNT))
    | .GASMIX =>
        if flags ≥ MAXGASES then (.unsupported, none)
        else (.success, some (.gasmix (cache.GASMIX.getD flags {})))
    | .SALINITY => (.success, some (.salinity cache.SALINITY))
    | .DIVEMODE => (.success, some (.divemode cache.DIVEMODE))
    | .STRING => dc_field_get_string cache flags
    | .ATMOSPHERIC => (.unsupported, none)

/-! ## Byte primitives

`array.c` itself is not part of the source snapshot; these scalar readers are
modelled from the spec (§4.5): little/big-endian loads from an unaligned byte
pointer.  The generic readers return C `unsigned int`, hence the mod 2^32. -/

/-- Modelled from the spec: `array_uint16_le` of §4.5 (array.c is not in the
snapshot) — 16-bit little-endian load. -/
def array_uint16_le (p : List Nat) : Nat :=
  p.getD 0 0 + (p.getD 1 0) * 256

/-- Modelled from the spec: `array_uint32_le` of §4.5 — 32-bit LE load. -/
def array_uint32_le (p : List Nat) : Nat :=
  p.getD 0 0 + (p.getD 1 0) * 256 + (p.getD 2 0) * 65536 + (p.getD 3 0) * 16777216

/-- Modelled from the spec: generic little-endian load of `n` bytes,
truncated to C `unsigned int` (32 bits) as `array_uint_le` returns. -/
def array_uint_le (p : List Nat) (n : Nat) : Nat :=
  (List.range n).foldr (fun i acc => acc * 256 + p.getD i 0) 0 % 2 ^ 32

/-- Modelled from the spec: generic big-endian load of `n` bytes, truncated
to C `unsigned int`. -/
def array_uint_be (p : List Nat) (n : Nat) : Nat :=
  (List.range n).foldl (fun acc i => acc * 256 + p.getD i 0) 0 % 2 ^ 32

/-- `array_uint_endian` (garmin parser): per-definition endianness dispatch. -/
def array_uint_endian (p : List Nat) (n : Nat) (bigendian : Bool) : Nat :=
  if bigendian then array_uint_be p n else array_uint_le p n

/-- Two's-complement reinterpretation of an unsigned `size`-byte value. -/
def toSigned (v : Nat) (size : Nat) : Int :=
  if v < 2 ^ (8 * size - 1) then (v : Int) else (v : Int) - 2 ^ (8 * size)

/-! ## McLean Extreme packet framing (iostream.c, McLean section) -/

/-- `checksum_crc` from the McLean backend, transcribed exactly: note that it
performs a single polynomial step per input byte (there is no inner 8-bit
loop), so it is not the CRC-16/XMODEM it is meant to be.  `crc` is a C
`unsigned short`, hence the mod 2^16 after each shift. -/
def checksum_crc : List Nat → Nat → Nat
  | [], crc => crc
  | b :: rest, crc =>
    let crc := crc ^^^ (b * 256 % 65536)
    let crc :=
      if crc &&& 0x8000 ≠ 0 then (crc * 2 % 65536) ^^^ 0x1021
      else crc * 2 % 65536
    checksum_crc rest crc

/-- One MSB-first polynomial step of CRC-16 with polynomial 0x1021. -/
def crc16_step (crc : Nat) : Nat :=
  if crc &&& 0x8000 ≠ 0 then (crc * 2 % 65536) ^^^ 0x1021
  else crc * 2 % 65536

/-- `n` iterated polynomial steps. -/
def crc16_steps : Nat → Nat → Nat
  | 0, crc => crc
  | n + 1, crc => crc16_steps n (crc16_step crc)

/-- Modelled from the spec: `xmodem_crc16(data, init)` of §4.5 — polynomial
0x1021, MSB-first, no reflection: XOR each byte into the high half, then
perform eight polynomial steps per byte. -/
def crc16_xmodem : List Nat → Nat → Nat
  | [], crc => crc
  | b :: rest, crc => crc16_xmodem rest (crc16_steps 8 (crc ^^^ (b * 256 % 65536)))

/-- The packet that `mclean_extreme_send` (iostream.c, McLean section) writes
to the transport: STX, 0x00, u32le(size), cmd, payload, CRC big-endian, two
trailing zero bytes; the checksum covers the bytes from the 0x00 after STX
through the end of the payload.  `none` models the
`size > SZ_PACKET → DC_STATUS_INVALIDARGS` early return. -/
def mclean_extreme_send_frame (cmd : Nat) (data : List Nat) : Option (List Nat) :=
  if data.length > 512 then none
  else
    let header : List Nat :=
      [0x7E, 0x00, data.length % 256, data.length / 256 % 256,
       data.length / 65536 % 256, data.length / 16777216 % 256, cmd]
    let crc := checksum_crc (header.drop 1 ++ data) 0
    some (header ++ data ++ [crc / 256 % 256, crc % 256, 0x00, 0x00])

/-! ## Samples -/

/-- Deco sample kinds (`dc_deco_type_t`). -/
inductive DcDecoType where
  | ndl
  | safetystop
  | decostop
  deriving DecidableEq, Repr

/-- A sample delivered to the caller's sample callback (`dc_sample_value_t`
tagged with the `dc_sample_type_t` the callback receives). -/
inductive DcSample where
  | time (seconds : Nat)
  | depth (meters : ℚ)
  | temperature (degrees : ℚ)
  | pressure (tank : Nat) (bar : ℚ)
  | gasmix (index : Nat)
  | deco (kind : DcDecoType) (time : Int) (depth : ℚ)
  | setpoint (bar : ℚ)
  | heartbeat (bpm : Nat)
  | cns (fraction : ℚ)
  | tts (seconds : Nat)
  | event (ename : String) (severity : Nat)
  deriving DecidableEq, Repr

/-! ## Garmin FIT parser state (src/unnamed/part_006, `garmin_parser_t`) -/

def MAXFIELDS : Nat := 128
def MAX_SENSORS : Nat := 6
def MAXTYPE : Nat := 16
def FIT_NAME_SIZE : Nat := 24

/-- `struct garmin_sensor` (the `sensor_name` string pointer is never
assigned by any handler and is omitted). -/
structure GarminSensor where
  sensor_id : Nat := 0
  sensor_enabled : Nat := 0
  sensor_units : Nat := 0
  sensor_used_for_gas_rate : Nat := 0
  sensor_rated_pressure : Nat := 0
  sensor_reserve_pressure : Nat := 0
  sensor_volume : Nat := 0
  deriving DecidableEq, Repr

def RECORD_GASMIX : Nat := 1
def RECORD_DECO : Nat := 2
def RECORD_EVENT : Nat := 4
def RECORD_DEVICE_INFO : Nat := 8
def RECORD_DECO_MODEL : Nat := 16
def RECORD_SENSOR_PROFILE : Nat := 32
def RECORD_TANK_UPDATE : Nat := 64
def RECORD_SETPOINT_CHANGE : Nat := 128

/-- `struct record_data`: the pending-record scratch area.  `index` and
`gas_status` are C `int`s (hence `Int` here: `part_index` stores a value cast
from unsigned), the rest C unsigned fields. -/
structure RecordData where
  pending : Nat := 0
  time : Nat := 0
  stop_time : Int := 0
  ceiling : ℚ := 0
  index : Int := 0
  gas_status : Int := 0
  gasmix : DcGasmix := {}
  event_type : Nat := 0
  event_nr : Nat := 0
  event_group : Nat := 0
  event_data : Nat := 0
  event_unknown : Nat := 0
  device_index : Nat := 0
  firmware : Nat := 0
  serial : Nat := 0
  product : Nat := 0
  model : Nat := 0
  gf_low : Nat := 0
  gf_high : Nat := 0
  sensor : Nat := 0
  pressure : Nat := 0
  setpoint_actual_cbar : Nat := 0
  deriving DecidableEq, Repr

structure GarminPos where
  lat : Int := 0
  lon : Int := 0
  deriving DecidableEq, Repr

/-- The nine GPS positions collected by the parser. -/
structure GarminGps where
  session_entry : GarminPos := {}
  session_exit : GarminPos := {}
  session_NE : GarminPos := {}
  session_SW : GarminPos := {}
  lap_entry : GarminPos := {}
  lap_exit : GarminPos := {}
  lap_some : GarminPos := {}
  lap_other : GarminPos := {}
  record : GarminPos := {}
  deriving DecidableEq, Repr

/-- The per-dive state (`garmin->dive`). -/
structure GarminDive where
  sub_sport : Nat := 0
  serial : Nat := 0
  product : Nat := 0
  firmware : Nat := 0
  protocol : Nat := 0
  profile : Nat := 0
  time : Nat := 0
  utc_offset : Int := 0
  time_offset : Int := 0
  nr_sensor : Nat := 0
  sensor : List GarminSensor := List.replicate MAX_SENSORS {}
  setpoint_low_cbar : Nat := 0
  setpoint_high_cbar : Nat := 0
  setpoint_low_switch_depth_mm : Nat := 0
  setpoint_high_switch_depth_mm : Nat := 0
  deriving DecidableEq, Repr

/-- A local type slot (`struct type_desc`): the global message number the
definition bound (standing in for the `msg_name`/`msg_desc` pointers) and the
`nrfields` field triples `(field_nr, size, base_type_bits)` that were copied
from the definition record. -/
structure TypeDesc where
  msg : Nat
  fields : List (Nat × Nat × Nat)
  deriving DecidableEq, Repr

/-- `garmin_parser_t`.  `hasCallback` models `garmin->callback != NULL`; the
samples a callback would receive are accumulated in emission order by every
function that can emit. -/
structure GarminParser where
  hasCallback : Bool := false
  record_data : RecordData := {}
  type_desc : List (Option TypeDesc) := List.replicate MAXTYPE none
  dive : GarminDive := {}
  gps : GarminGps := {}
  cache : DcFieldCache := {}
  is_big_endian : Bool := false
  deriving DecidableEq, Repr

/-- `current_sensor`: `dive.sensor + dive.nr_sensor`. -/
def current_sensor (g : GarminParser) : GarminSensor :=
  g.dive.sensor.getD g.dive.nr_sensor {}

/-- Writing through the `current_sensor` pointer. -/
def set_current_sensor (g : GarminParser) (s : GarminSensor) : GarminParser :=
  { g with dive := { g.dive with sensor := g.dive.sensor.set g.dive.nr_sensor s } }

/-- The scan loop of `find_tank_index`: first position whose `sensor_id`
matches, scanning `i = 0 .. nr_sensor-1`. -/
def find_tank_index_from : List GarminSensor → Nat → Nat → Option Nat
  | [], _, _ => none
  | s :: rest, id, i =>
      if s.sensor_id = id then some i else find_tank_index_from rest id (i + 1)

/-- `find_tank_index`: position of `sensor_id` among the registered sensors
(`i < dive.nr_sensor`), and `0` when no registered sensor matches. -/
def find_tank_index (g : GarminParser) (sensor_id : Nat) : Nat :=
  (find_tank_index_from (g.dive.sensor.take g.dive.nr_sensor) sensor_id 0).getD 0

/-- The `event_desc` table of `garmin_event`: severity and name, indexed by
the event datum; entries 26..31 of the C array exist but have a NULL name and
are `none` here, as is everything at index 33 and beyond. -/
def event_desc (n : Nat) : Option (Nat × String) :=
  match n with
  | 0 => some (2, "Deco required")
  | 1 => some (2, "Gas Switch prompted")
  | 2 => some (1, "Surface")
  | 3 => some (2, "Approaching NDL")
  | 4 => some (3, "ppO2 warning")
  | 5 => some (4, "ppO2 critical high")
  | 6 => some (4, "ppO2 critical low")
  | 7 => some (2, "Time alert")
  | 8 => some (2, "Depth alert")
  | 9 => some (3, "Deco ceiling broken")
  | 10 => some (1, "Deco completed")
  | 11 => some (3, "Safety stop ceiling broken")
  | 12 => some (1, "Safety stop completed")
  | 13 => some (3, "CNS warning")
  | 14 => some (4, "CNS critical")
  | 15 => some (3, "OTU warning")
  | 16 => some (4, "OTU critical")
  | 17 => some (3, "Ascent speed critical")
  | 18 => some (1, "Alert dismissed")
  | 19 => some (1, "Alert timed out")
  | 20 => some (3, "Battry Low")
  | 21 => some (3, "Battry Critical")
  | 22 => some (1, "Safety stop begin")
  | 23 => some (1, "Approaching deco stop")
  | 24 => some (1, "Switched to low setpoint")
  | 25 => some (1, "Switched to high setpoint")
  | 32 => some (1, "Tank battery low")
  | _ => none

/-- `garmin_event`: only called on the callback pass.  Event 56 looks up the
event-description table (the C bound `C_ARRAY_SIZE(event_desc) = 33`); data
24/25 additionally queue a setpoint change; a NULL name suppresses the event
sample.  Event 57 emits a gas-mix sample directly; 38/48 and everything else
fall through silently. -/
def garmin_event (g : GarminParser) (event _etype _group : Nat)
    (data _unknown : Nat) : GarminParser × List DcSample :=
  match event with
  | 38 => (g, [])
  | 48 => (g, [])
  | 56 =>
      if data ≥ 33 then (g, [])
      else
        let g :=
          if data = 24 ∨ data = 25 then
            { g with record_data := { g.record_data with
                setpoint_actual_cbar :=
                  if data = 24 then g.dive.setpoint_low_cbar
                  else g.dive.setpoint_high_cbar,
                pending := g.record_data.pending ||| RECORD_SETPOINT_CHANGE } }
          else g
        match event_desc data with
        | some (sev, ename) => (g, [.event ename sev])
        | none => (g, [])
  | 57 => (g, [.gasmix data])
  | _ => (g, [])

/-! ## Pending-record flush (part_006 `flush_pending_record`) -/

/-- The `RECORD_GASMIX` block of the no-callback flush: when the gas is
enabled (`gas_status > 0`) and the index is in range, store the mix and set
`GASMIX_COUNT` to `index + 1` (note: not `max(count, index+1)`). -/
def flush_nc_gasmix (pending : Nat) (record : RecordData)
    (g : GarminParser) : GarminParser :=
  if pending &&& RECORD_GASMIX ≠ 0 then
    -- 0 - disabled, 1 - enabled, 2 - backup
    if record.gas_status > 0 ∧ record.index < 16 then
      { g with cache := { g.cache with
          GASMIX := g.cache.GASMIX.set record.index.toNat record.gasmix,
          GASMIX_COUNT := record.index.toNat + 1,
          initialized :=
            .GASMIX_COUNT :: .GASMIX :: g.cache.initialized } }
    else g
  else g

/-- The `RECORD_DEVICE_INFO` block: keep the record only for device 0. -/
def flush_nc_device_info (pending : Nat) (record : RecordData)
    (g : GarminParser) : GarminParser :=
  if pending &&& RECORD_DEVICE_INFO ≠ 0 ∧ record.device_index = 0 then
    { g with dive := { g.dive with
        firmware := record.firmware,
        serial := record.serial,
        product := record.product } }
  else g

/-- The `RECORD_DECO_MODEL` block: add the "Deco model" string. -/
def flush_nc_deco_model (pending : Nat) (record : RecordData)
    (g : GarminParser) : GarminParser :=
  if pending &&& RECORD_DECO_MODEL ≠ 0 then
    { g with cache := (dc_field_add_string_fmt g.cache "Deco model"
        ("Buhlmann ZHL-16C " ++ toString record.gf_low ++ "/" ++
          toString record.gf_high)).2 }
  else g

/-- The `RECORD_SENSOR_PROFILE` block: advance `nr_sensor` while there is
room, keeping the last slot as scratch. -/
def flush_nc_sensor_profile (pending : Nat) (_record : RecordData)
    (g : GarminParser) : GarminParser :=
  if pending &&& RECORD_SENSOR_PROFILE ≠ 0 then
    if g.dive.nr_sensor < MAX_SENSORS - 1 then
      { g with dive := { g.dive with nr_sensor := g.dive.nr_sensor + 1 } }
    else g
  else g

/-- `flush_pending_record`.  Clears `pending` first.  Without a callback
(the `set_data` pass) it updates the caches: gas mixes — note the
*unconditional* `GASMIX_COUNT = index+1` assignment — device info for
device_index 0, the deco-model string, and the tank-pod sensor count.  With a
callback it emits the buffered deco/event/tank-pressure/setpoint samples. -/
def flush_pending_record (g : GarminParser) : GarminParser × List DcSample :=
  let record := g.record_data
  let pending := record.pending
  let g := { g with record_data := { record with pending := 0 } }
  if !g.hasCallback then
    (flush_nc_sensor_profile pending record
      (flush_nc_deco_model pending record
        (flush_nc_device_info pending record
          (flush_nc_gasmix pending record g))), [])
  else
    let out1 : List DcSample :=
      if pending &&& RECORD_DECO ≠ 0 then
        [.deco .decostop record.stop_time record.ceiling]
      else []
    let (g, out2) :=
      if pending &&& RECORD_EVENT ≠ 0 then
        garmin_event g record.event_nr record.event_type record.event_group
          record.event_data record.event_unknown
      else (g, [])
    let out3 : List DcSample :=
      if pending &&& RECORD_TANK_UPDATE ≠ 0 then
        [.pressure (find_tank_index g record.sensor) ((record.pressure : ℚ) / 100)]
      else []
    let out4 : List DcSample :=
      if pending &&& RECORD_SETPOINT_CHANGE ≠ 0 then
        [.setpoint ((record.setpoint_actual_cbar : ℚ) / 100)]
      else []
    (g, out1 ++ out2 ++ out3 ++ out4)

/-! ## Field handlers (the `DECLARE_FIELD` bodies of part_006)

Each handler receives the decoded (and sentinel-checked) value of its field;
`Int` covers both the signed and the unsigned declared types.  Handlers that
emit samples do so only when the parser has a callback. -/

abbrev GarminHandler := GarminParser → Int → GarminParser × List DcSample

/-- `parse_ANY_timestamp` (field number 253 of every message): turn the raw
Garmin timestamp into a dive-relative sample time; refuse timestamps before
the dive start or before the time already emitted; update the
`record_data.time` marker to `data + 1` exactly when a Time sample goes
out. -/
def parse_ANY_timestamp : GarminHandler := fun g v =>
  if g.hasCallback then
    if v.toNat < g.dive.time then (g, [])
    else
      if v.toNat - g.dive.time < g.record_data.time then (g, [])
      else
        ({ g with record_data := { g.record_data with
             time := v.toNat - g.dive.time + 1 } },
         [.time (v.toNat - g.dive.time)])
  else (g, [])

def parse_ANY_message_index : GarminHandler := fun g v =>
  ({ g with record_data := { g.record_data with index := v } }, [])

def parse_ANY_part_index : GarminHandler := fun g v =>
  ({ g with record_data := { g.record_data with index := v } }, [])

-- FILE msg: all seven handlers have empty bodies.
def parse_FILE_file_type : GarminHandler := fun g _ => (g, [])
def parse_FILE_manufacturer : GarminHandler := fun g _ => (g, [])
def parse_FILE_product : GarminHandler := fun g _ => (g, [])
def parse_FILE_serial : GarminHandler := fun g _ => (g, [])
def parse_FILE_creation_time : GarminHandler := fun g _ => (g, [])
def parse_FILE_number : GarminHandler := fun g _ => (g, [])
def parse_FILE_other_time : GarminHandler := fun g _ => (g, [])

-- SESSION msg
def parse_SESSION_start_time : GarminHandler := fun g v =>
  ({ g with dive := { g.dive with time := v.toNat } }, [])
def parse_SESSION_start_pos_lat : GarminHandler := fun g v =>
  ({ g with gps := { g.gps with session_entry := { g.gps.session_entry with lat := v } } }, [])
def parse_SESSION_start_pos_long : GarminHandler := fun g v =>
  ({ g with gps := { g.gps with session_entry := { g.gps.session_entry with lon := v } } }, [])
def parse_SESSION_nec_pos_lat : GarminHandler := fun g v =>
  ({ g with gps := { g.gps with session_NE := { g.gps.session_NE with lat := v } } }, [])
def parse_SESSION_nec_pos_long : GarminHandler := fun g v =>
  ({ g with gps := { g.gps with session_NE := { g.gps.session_NE with lon := v } } }, [])
def parse_SESSION_swc_pos_lat : GarminHandler := fun g v =>
  ({ g with gps := { g.gps with session_SW := { g.gps.session_SW with lat := v } } }, [])
def parse_SESSION_swc_pos_long : GarminHandler := fun g v =>
  ({ g with gps := { g.gps with session_SW := { g.gps.session_SW with lon := v } } }, [])
def parse_SESSION_exit_pos_lat : GarminHandler := fun g v =>
  ({ g with gps := { g.gps with session_exit := { g.gps.session_exit with lat := v } } }, [])
def parse_SESSION_exit_pos_long : GarminHandler := fun g v =>
  ({ g with gps := { g.gps with session_exit := { g.gps.session_exit with lon := v } } }, [])

-- LAP msg
def parse_LAP_start_time : GarminHandler := fun g _ => (g, [])
def parse_LAP_start_pos_lat : GarminHandler := fun g v =>
  ({ g with gps := { g.gps with lap_entry := { g.gps.lap_entry with lat := v } } }, [])
def parse_LAP_start_pos_long : GarminHandler := fun g v =>
  ({ g with gps := { g.gps with lap_entry := { g.gps.lap_entry with lon := v } } }, [])
def parse_LAP_end_pos_lat : GarminHandler := fun g v =>
  ({ g with gps := { g.gps with lap_exit := { g.gps.lap_exit with lat := v } } }, [])
def parse_LAP_end_pos_long : GarminHandler := fun g v =>
  ({ g with gps := { g.gps with lap_exit := { g.gps.lap_exit with lon := v } } }, [])
def parse_LAP_some_pos_lat : GarminHandler := fun g v =>
  ({ g with gps := { g.gps with lap_some := { g.gps.lap_some with lat := v } } }, [])
def parse_LAP_some_pos_long : GarminHandler := fun g v =>
  ({ g with gps := { g.gps with lap_some := { g.gps.lap_some with lon := v } } }, [])
def parse_LAP_other_pos_lat : GarminHandler := fun g v =>
  ({ g with gps := { g.gps with lap_other := { g.gps.lap_other with lat := v } } }, [])
def parse_LAP_other_pos_long : GarminHandler := fun g v =>
  ({ g with gps := { g.gps with lap_other := { g.gps.lap_other with lon := v } } }, [])

-- RECORD msg
def parse_RECORD_position_lat : GarminHandler := fun g v =>
  ({ g with gps := { g.gps with record := { g.gps.record with lat := v } } }, [])
def parse_RECORD_position_long : GarminHandler := fun g v =>
  ({ g with gps := { g.gps with record := { g.gps.record with lon := v } } }, [])
def parse_RECORD_altitude : GarminHandler := fun g _ => (g, [])
def parse_RECORD_heart_rate : GarminHandler := fun g v =>
  if g.hasCallback then (g, [.heartbeat v.toNat]) else (g, [])
def parse_RECORD_distance : GarminHandler := fun g _ => (g, [])
def parse_RECORD_temperature : GarminHandler := fun g v =>
  if g.hasCallback then (g, [.temperature (v : ℚ)]) else (g, [])
def parse_RECORD_abs_pressure : GarminHandler := fun g _ => (g, [])
def parse_RECORD_depth : GarminHandler := fun g v =>
  if g.hasCallback then (g, [.depth ((v : ℚ) / 1000)]) else (g, [])
def parse_RECORD_next_stop_depth : GarminHandler := fun g v =>
  ({ g with record_data := { g.record_data with
      pending := g.record_data.pending ||| RECORD_DECO,
      ceiling := (v : ℚ) / 1000 } }, [])
def parse_RECORD_next_stop_time : GarminHandler := fun g v =>
  ({ g with record_data := { g.record_data with
      pending := g.record_data.pending ||| RECORD_DECO,
      stop_time := v } }, [])
def parse_RECORD_tts : GarminHandler := fun g v =>
  if g.hasCallback then (g, [.tts v.toNat]) else (g, [])
def parse_RECORD_ndl : GarminHandler := fun g v =>
  if g.hasCallback then (g, [.deco .ndl v 0]) else (g, [])
def parse_RECORD_cns_load : GarminHandler := fun g v =>
  if g.hasCallback then (g, [.cns ((v : ℚ) / 100)]) else (g, [])
def parse_RECORD_n2_load : GarminHandler := fun g _ => (g, [])
def parse_RECORD_air_time_remaining : GarminHandler := fun g _ => (g, [])
def parse_RECORD_pressure_sac : GarminHandler := fun g _ => (g, [])
def parse_RECORD_volume_sac : GarminHandler := fun g _ => (g, [])
def parse_RECORD_rmv : GarminHandler := fun g _ => (g, [])
def parse_RECORD_ascent_rate : GarminHandler := fun g _ => (g, [])

-- DEVICE_SETTINGS: the FIT file declares these unsigned; the code casts to
-- signed 32-bit.
def parse_DEVICE_SETTINGS_utc_offset : GarminHandler := fun g v =>
  ({ g with dive := { g.dive with utc_offset := toSigned v.toNat 4 } }, [])
def parse_DEVICE_SETTINGS_time_offset : GarminHandler := fun g v =>
  ({ g with dive := { g.dive with time_offset := toSigned v.toNat 4 } }, [])

-- DEVICE_INFO: aggregate into record_data, used at flush if device_index 0.
def parse_DEVICE_INFO_device_index : GarminHandler := fun g v =>
  ({ g with record_data := { g.record_data with
      device_index := v.toNat,
      pending := g.record_data.pending ||| RECORD_DEVICE_INFO } }, [])
def parse_DEVICE_INFO_product : GarminHandler := fun g v =>
  ({ g with record_data := { g.record_data with
      product := v.toNat,
      pending := g.record_data.pending ||| RECORD_DEVICE_INFO } }, [])
def parse_DEVICE_INFO_serial_nr : GarminHandler := fun g v =>
  ({ g with record_data := { g.record_data with
      serial := v.toNat,
      pending := g.record_data.pending ||| RECORD_DEVICE_INFO } }, [])
def parse_DEVICE_INFO_firmware : GarminHandler := fun g v =>
  ({ g with record_data := { g.record_data with
      firmware := v.toNat,
      pending := g.record_data.pending ||| RECORD_DEVICE_INFO } }, [])

/-- SPORT sub_sport: remember the raw value and map 55 → gauge, 56/57 →
freedive, 63 → CCR, everything else → OC into the cache's DIVEMODE. -/
def parse_SPORT_sub_sport : GarminHandler := fun g v =>
  let data := v.toNat
  let dmode : DcDivemode :=
    if data = 55 then .gauge
    else if data = 56 ∨ data = 57 then .freedive
    else if data = 63 then .ccr
    else .oc
  ({ g with
      dive := { g.dive with sub_sport := data },
      cache := { g.cache with
        DIVEMODE := dmode,
        initialized := .DIVEMODE :: g.cache.initialized } }, [])

-- DIVE_GAS - uses msg index
def parse_DIVE_GAS_helium : GarminHandler := fun g v =>
  ({ g with record_data := { g.record_data with
      gasmix := { g.record_data.gasmix with helium := (v : ℚ) / 100 },
      pending := g.record_data.pending ||| RECORD_GASMIX } }, [])
def parse_DIVE_GAS_oxygen : GarminHandler := fun g v =>
  ({ g with record_data := { g.record_data with
      gasmix := { g.record_data.gasmix with oxygen := (v : ℚ) / 100 },
      pending := g.record_data.pending ||| RECORD_GASMIX } }, [])
def parse_DIVE_GAS_status : GarminHandler := fun g v =>
  -- 0 - disabled, 1 - enabled, 2 - backup
  ({ g with record_data := { g.record_data with gas_status := v } }, [])

-- DIVE_SUMMARY
def parse_DIVE_SUMMARY_avg_depth : GarminHandler := fun g v =>
  ({ g with cache := { g.cache with
      AVGDEPTH := (v : ℚ) / 1000,
      initialized := .AVGDEPTH :: g.cache.initialized } }, [])
def parse_DIVE_SUMMARY_max_depth : GarminHandler := fun g v =>
  ({ g with cache := { g.cache with
      MAXDEPTH := (v : ℚ) / 1000,
      initialized := .MAXDEPTH :: g.cache.initialized } }, [])
def parse_DIVE_SUMMARY_surface_interval : GarminHandler := fun g _ => (g, [])
def parse_DIVE_SUMMARY_start_cns : GarminHandler := fun g _ => (g, [])
def parse_DIVE_SUMMARY_end_cns : GarminHandler := fun g _ => (g, [])
def parse_DIVE_SUMMARY_start_n2 : GarminHandler := fun g _ => (g, [])
def parse_DIVE_SUMMARY_end_n2 : GarminHandler := fun g _ => (g, [])
def parse_DIVE_SUMMARY_o2_toxicity : GarminHandler := fun g _ => (g, [])
def parse_DIVE_SUMMARY_dive_number : GarminHandler := fun g _ => (g, [])
def parse_DIVE_SUMMARY_bottom_time : GarminHandler := fun g v =>
  -- milliseconds; C unsigned division by 1000
  ({ g with cache := { g.cache with
      DIVETIME := v.toNat / 1000,
      initialized := .DIVETIME :: g.cache.initialized } }, [])
def parse_DIVE_SUMMARY_avg_pressure_sac : GarminHandler := fun g _ => (g, [])
def parse_DIVE_SUMMARY_avg_volume_sac : GarminHandler := fun g _ => (g, [])
def parse_DIVE_SUMMARY_avg_rmv : GarminHandler := fun g _ => (g, [])

-- DIVE_SETTINGS
def parse_DIVE_SETTINGS_model : GarminHandler := fun g v =>
  ({ g with record_data := { g.record_data with
      model := v.toNat,
      pending := g.record_data.pending ||| RECORD_DECO_MODEL } }, [])
def parse_DIVE_SETTINGS_gf_low : GarminHandler := fun g v =>
  ({ g with record_data := { g.record_data with
      gf_low := v.toNat,
      pending := g.record_data.pending ||| RECORD_DECO_MODEL } }, [])
def parse_DIVE_SETTINGS_gf_high : GarminHandler := fun g v =>
  ({ g with record_data := { g.record_data with
      gf_high := v.toNat,
      pending := g.record_data.pending ||| RECORD_DECO_MODEL } }, [])
def parse_DIVE_SETTINGS_water_type : GarminHandler := fun g v =>
  ({ g with cache := { g.cache with
      SALINITY := { g.cache.SALINITY with
        kind := if v ≠ 0 then .salt else .fresh },
      initialized := .SALINITY :: g.cache.initialized } }, [])
def parse_DIVE_SETTINGS_water_density : GarminHandler := fun g v =>
  -- The C reinterprets the 32-bit pattern as a float; the model keeps bits.
  ({ g with cache := { g.cache with
      SALINITY := { g.cache.SALINITY with density_bits := v.toNat },
      initialized := .SALINITY :: g.cache.initialized } }, [])
def parse_DIVE_SETTINGS_po2_warn : GarminHandler := fun g _ => (g, [])
def parse_DIVE_SETTINGS_po2_critical : GarminHandler := fun g _ => (g, [])
def parse_DIVE_SETTINGS_po2_deco : GarminHandler := fun g _ => (g, [])
def parse_DIVE_SETTINGS_safety_stop_enabled : GarminHandler := fun g _ => (g, [])
def parse_DIVE_SETTINGS_bottom_depth : GarminHandler := fun g _ => (g, [])
def parse_DIVE_SETTINGS_bottom_time : GarminHandler := fun g _ => (g, [])
def parse_DIVE_SETTINGS_apnea_countdown_enabled : GarminHandler := fun g _ => (g, [])
def parse_DIVE_SETTINGS_apnea_countdown_time : GarminHandler := fun g _ => (g, [])
def parse_DIVE_SETTINGS_backlight_mode : GarminHandler := fun g _ => (g, [])
def parse_DIVE_SETTINGS_backlight_brightness : GarminHandler := fun g _ => (g, [])
def parse_DIVE_SETTINGS_backlight_timeout : GarminHandler := fun g _ => (g, [])
def parse_DIVE_SETTINGS_repeat_dive_interval : GarminHandler := fun g _ => (g, [])
def parse_DIVE_SETTINGS_safety_stop_time : GarminHandler := fun g _ => (g, [])
def parse_DIVE_SETTINGS_heart_rate_source_type : GarminHandler := fun g _ => (g, [])
def parse_DIVE_SETTINGS_heart_rate_device_type : GarminHandler := fun g _ => (g, [])
def parse_DIVE_SETTINGS_setpoint_low_cbar : GarminHandler := fun g v =>
  -- The initial setpoint at the start of the dive is the low setpoint
  ({ g with
      dive := { g.dive with setpoint_low_cbar := v.toNat },
      record_data := { g.record_data with
        setpoint_actual_cbar := v.toNat,
        pending := g.record_data.pending ||| RECORD_SETPOINT_CHANGE } }, [])
def parse_DIVE_SETTINGS_setpoint_low_switch_depth_mm : GarminHandler := fun g v =>
  ({ g with dive := { g.dive with setpoint_low_switch_depth_mm := v.toNat } }, [])
def parse_DIVE_SETTINGS_setpoint_high_cbar : GarminHandler := fun g v =>
  ({ g with dive := { g.dive with setpoint_high_cbar := v.toNat } }, [])
def parse_DIVE_SETTINGS_setpoint_high_switch_depth_mm : GarminHandler := fun g v =>
  ({ g with dive := { g.dive with setpoint_high_switch_depth_mm := v.toNat } }, [])

-- SENSOR_PROFILE: fills in dive.sensor[nr_sensor] through current_sensor.
def parse_SENSOR_PROFILE_ant_channel_id : GarminHandler := fun g v =>
  (set_current_sensor g { current_sensor g with sensor_id := v.toNat }, [])
def parse_SENSOR_PROFILE_enabled : GarminHandler := fun g v =>
  (set_current_sensor g { current_sensor g with sensor_enabled := v.toNat }, [])
def parse_SENSOR_PROFILE_sensor_type : GarminHandler := fun g v =>
  -- 28 is tank pod: start filling in next sensor after this record
  if v = 28 then
    ({ g with record_data := { g.record_data with
        pending := g.record_data.pending ||| RECORD_SENSOR_PROFILE } }, [])
  else (g, [])
def parse_SENSOR_PROFILE_pressure_units : GarminHandler := fun g v =>
  (set_current_sensor g { current_sensor g with sensor_units := v.toNat }, [])
def parse_SENSOR_PROFILE_rated_pressure : GarminHandler := fun g v =>
  (set_current_sensor g { current_sensor g with sensor_rated_pressure := v.toNat }, [])
def parse_SENSOR_PROFILE_reserve_pressure : GarminHandler := fun g v =>
  (set_current_sensor g { current_sensor g with sensor_reserve_pressure := v.toNat }, [])
def parse_SENSOR_PROFILE_volume : GarminHandler := fun g v =>
  (set_current_sensor g { current_sensor g with sensor_volume := v.toNat }, [])
def parse_SENSOR_PROFILE_used_for_gas_rate : GarminHandler := fun g v =>
  (set_current_sensor g { current_sensor g with sensor_used_for_gas_rate := v.toNat }, [])

-- TANK_UPDATE
def parse_TANK_UPDATE_sensor : GarminHandler := fun g v =>
  ({ g with record_data := { g.record_data with sensor := v.toNat } }, [])
def parse_TANK_UPDATE_pressure : GarminHandler := fun g v =>
  ({ g with record_data := { g.record_data with
      pressure := v.toNat,
      pending := g.record_data.pending ||| RECORD_TANK_UPDATE } }, [])

-- TANK_SUMMARY: all four handlers have empty bodies.
def parse_TANK_SUMMARY_sensor : GarminHandler := fun g _ => (g, [])
def parse_TANK_SUMMARY_start_pressure : GarminHandler := fun g _ => (g, [])
def parse_TANK_SUMMARY_end_pressure : GarminHandler := fun g _ => (g, [])
def parse_TANK_SUMMARY_volume_used : GarminHandler := fun g _ => (g, [])

-- EVENT
def parse_EVENT_event : GarminHandler := fun g v =>
  ({ g with record_data := { g.record_data with
      event_nr := v.toNat,
      pending := g.record_data.pending ||| RECORD_EVENT } }, [])
def parse_EVENT_type : GarminHandler := fun g v =>
  ({ g with record_data := { g.record_data with
      event_type := v.toNat,
      pending := g.record_data.pending ||| RECORD_EVENT } }, [])
def parse_EVENT_data : GarminHandler := fun g v =>
  ({ g with record_data := { g.record_data with event_data := v.toNat } }, [])
def parse_EVENT_event_group : GarminHandler := fun g v =>
  ({ g with record_data := { g.record_data with event_group := v.toNat } }, [])
def parse_EVENT_unknown : GarminHandler := fun g v =>
  ({ g with record_data := { g.record_data with event_unknown := v.toNat } }, [])
def parse_EVENT_tank_pressure_reserve : GarminHandler := fun g _ => (g, [])
def parse_EVENT_tank_pressure_critical : GarminHandler := fun g _ => (g, [])
def parse_EVENT_tank_pressure_lost : GarminHandler := fun g _ => (g, [])

-- STRING-typed fields (DIVE_SETTINGS name, SENSOR_PROFILE name): the bodies
-- are empty; strings are not decoded through the scalar path.
def parse_DIVE_SETTINGS_name : GarminHandler := fun g _ => (g, [])
def parse_SENSOR_PROFILE_name : GarminHandler := fun g _ => (g, [])

/-! ## Generic field decode (`DECLARE_FIELD` wrapper + traverse_regular) -/

/-- The declared FIT type of a handler (`DECLARE_FIT_TYPE`): C size in
bytes, signedness, and the invalid sentinel against which the decoded value
is compared after the cast.  `isString` marks the two `STRING` handlers,
whose value is a reinterpreted pointer and whose bodies are empty. -/
structure FitFieldDecl where
  size : Nat
  signed : Bool
  inval : Int
  isString : Bool := false
  deriving DecidableEq, Repr

def ENUM_t : FitFieldDecl := ⟨1, false, 0xff, false⟩
def UINT8_t : FitFieldDecl := ⟨1, false, 0xff, false⟩
def UINT16_t : FitFieldDecl := ⟨2, false, 0xffff, false⟩
def UINT32_t : FitFieldDecl := ⟨4, false, 0xffffffff, false⟩
def UINT8Z_t : FitFieldDecl := ⟨1, false, 0, false⟩
def UINT16Z_t : FitFieldDecl := ⟨2, false, 0, false⟩
def UINT32Z_t : FitFieldDecl := ⟨4, false, 0, false⟩
def SINT8_t : FitFieldDecl := ⟨1, true, 0x7f, false⟩
def SINT32_t : FitFieldDecl := ⟨4, true, 0x7fffffff, false⟩
def FLOAT_t : FitFieldDecl := ⟨4, false, 0xffffffff, false⟩
def STRING_t : FitFieldDecl := ⟨1, false, 0, true⟩

/-- `base_type_info[...].type_size` for the 17 wire base types. -/
def base_type_size (b : Nat) : Nat :=
  ([1, 1, 1, 2, 2, 4, 4, 1, 4, 8, 1, 2, 4, 1, 8, 8, 8] : List Nat).getD b 0

/-- `base_type_is_integer`: wire base types whose name has "INT" at offset 1
(the SINT/UINT families, including the `Z` variants). -/
def base_type_is_integer (b : Nat) : Bool :=
  ([1, 2, 3, 4, 5, 6, 10, 11, 12, 14, 15, 16] : List Nat).contains b

/-- Raw little-endian assembly of `n` bytes (a C memory load). -/
def array_le_raw (p : List Nat) (n : Nat) : Nat :=
  (List.range n).foldr (fun i acc => acc * 256 + p.getD i 0) 0

/-- The value computation of the `__DECLARE_FIELD` wrapper: multi-byte
integer wire types go through `array_uint_endian` honouring the definition's
endianness and are cast (truncated) to the declared type; everything else is
a direct little-endian (host order) load of the declared type's size. -/
def read_declared (big : Bool) (d : FitFieldDecl) (base_type : Nat)
    (p : List Nat) : Int :=
  let raw : Nat :=
    if 1 < base_type_size base_type ∧ base_type_is_integer base_type then
      array_uint_endian p (base_type_size base_type) big % 2 ^ (8 * d.size)
    else
      array_le_raw p d.size
  if d.signed then toSigned raw d.size else (raw : Int)

/-- Apply one `field_desc`: decode the value, skip it silently when it equals
the declared type's invalid sentinel, otherwise run the handler.  For the
`STRING`-declared fields the C reads a reinterpreted pointer and the handler
bodies are empty, so nothing happens either way. -/
def apply_field_desc (d : FitFieldDecl) (h : GarminHandler) (g : GarminParser)
    (base_type : Nat) (p : List Nat) : GarminParser × List DcSample :=
  if d.isString then (g, [])
  else if read_declared g.is_big_endian d base_type p = d.inval then (g, [])
  else h g (read_declared g.is_big_endian d base_type p)

/-- The static `msg_desc` tables: `(global message, field number)` →
declared type and handler; the `SET_FIELD` entries of part_006, message by
message.  A `(msg, fnr)` pair outside this table is an unknown field (the C
`unknown_field` logs it and changes nothing), which also covers the known
messages declared with no fields and the `msg-N` placeholder descriptors of
`lookup_msg_desc`. -/
def garmin_field_table : List (Nat × Nat × FitFieldDecl × GarminHandler) := [
  -- FILE (0)
  (0, 0, ENUM_t, parse_FILE_file_type),
  (0, 1, UINT16_t, parse_FILE_manufacturer),
  (0, 2, UINT16_t, parse_FILE_product),
  (0, 3, UINT32Z_t, parse_FILE_serial),
  (0, 4, UINT32_t, parse_FILE_creation_time),
  (0, 5, UINT16_t, parse_FILE_number),
  (0, 7, UINT32_t, parse_FILE_other_time),
  -- DEVICE_SETTINGS (2)
  (2, 1, UINT32_t, parse_DEVICE_SETTINGS_utc_offset),
  (2, 2, UINT32_t, parse_DEVICE_SETTINGS_time_offset),
  -- SPORT (12)
  (12, 1, ENUM_t, parse_SPORT_sub_sport),
  -- SESSION (18)
  (18, 2, UINT32_t, parse_SESSION_start_time),
  (18, 3, SINT32_t, parse_SESSION_start_pos_lat),
  (18, 4, SINT32_t, parse_SESSION_start_pos_long),
  (18, 29, SINT32_t, parse_SESSION_nec_pos_lat),
  (18, 30, SINT32_t, parse_SESSION_nec_pos_long),
  (18, 31, SINT32_t, parse_SESSION_swc_pos_lat),
  (18, 32, SINT32_t, parse_SESSION_swc_pos_long),
  (18, 38, SINT32_t, parse_SESSION_exit_pos_lat),
  (18, 39, SINT32_t, parse_SESSION_exit_pos_long),
  -- LAP (19)
  (19, 2, UINT32_t, parse_LAP_start_time),
  (19, 3, SINT32_t, parse_LAP_start_pos_lat),
  (19, 4, SINT32_t, parse_LAP_start_pos_long),
  (19, 5, SINT32_t, parse_LAP_end_pos_lat),
  (19, 6, SINT32_t, parse_LAP_end_pos_long),
  (19, 27, SINT32_t, parse_LAP_some_pos_lat),
  (19, 28, SINT32_t, parse_LAP_some_pos_long),
  (19, 29, SINT32_t, parse_LAP_other_pos_lat),
  (19, 30, SINT32_t, parse_LAP_other_pos_long),
  -- RECORD (20)
  (20, 0, SINT32_t, parse_RECORD_position_lat),
  (20, 1, SINT32_t, parse_RECORD_position_long),
  (20, 2, UINT16_t, parse_RECORD_altitude),
  (20, 3, UINT8_t, parse_RECORD_heart_rate),
  (20, 5, UINT32_t, parse_RECORD_distance),
  (20, 13, SINT8_t, parse_RECORD_temperature),
  (20, 91, UINT32_t, parse_RECORD_abs_pressure),
  (20, 92, UINT32_t, parse_RECORD_depth),
  (20, 93, UINT32_t, parse_RECORD_next_stop_depth),
  (20, 94, UINT32_t, parse_RECORD_next_stop_time),
  (20, 95, UINT32_t, parse_RECORD_tts),
  (20, 96, UINT32_t, parse_RECORD_ndl),
  (20, 97, UINT8_t, parse_RECORD_cns_load),
  (20, 98, UINT16_t, parse_RECORD_n2_load),
  (20, 123, UINT32_t, parse_RECORD_air_time_remaining),
  (20, 124, UINT16_t, parse_RECORD_pressure_sac),
  (20, 125, UINT16_t, parse_RECORD_volume_sac),
  (20, 126, UINT16_t, parse_RECORD_rmv),
  (20, 127, SINT32_t, parse_RECORD_ascent_rate),
  -- EVENT (21)
  (21, 0, ENUM_t, parse_EVENT_event),
  (21, 1, ENUM_t, parse_EVENT_type),
  (21, 3, UINT32_t, parse_EVENT_data),
  (21, 4, UINT8_t, parse_EVENT_event_group),
  (21, 15, UINT32_t, parse_EVENT_unknown),
  (21, 71, UINT32Z_t, parse_EVENT_tank_pressure_reserve),
  (21, 72, UINT32Z_t, parse_EVENT_tank_pressure_critical),
  (21, 73, UINT32Z_t, parse_EVENT_tank_pressure_lost),
  -- DEVICE_INFO (23)
  (23, 0, UINT8_t, parse_DEVICE_INFO_device_index),
  (23, 3, UINT32Z_t, parse_DEVICE_INFO_serial_nr),
  (23, 4, UINT16_t, parse_DEVICE_INFO_product),
  (23, 5, UINT16_t, parse_DEVICE_INFO_firmware),
  -- SENSOR_PROFILE (147)
  (147, 0, UINT32Z_t, parse_SENSOR_PROFILE_ant_channel_id),
  (147, 2, STRING_t, parse_SENSOR_PROFILE_name),
  (147, 3, ENUM_t, parse_SENSOR_PROFILE_enabled),
  (147, 52, UINT8_t, parse_SENSOR_PROFILE_sensor_type),
  (147, 74, ENUM_t, parse_SENSOR_PROFILE_pressure_units),
  (147, 75, UINT16_t, parse_SENSOR_PROFILE_rated_pressure),
  (147, 76, UINT16_t, parse_SENSOR_PROFILE_reserve_pressure),
  (147, 77, UINT16_t, parse_SENSOR_PROFILE_volume),
  (147, 78, ENUM_t, parse_SENSOR_PROFILE_used_for_gas_rate),
  -- DIVE_SETTINGS (258)
  (258, 0, STRING_t, parse_DIVE_SETTINGS_name),
  (258, 1, ENUM_t, parse_DIVE_SETTINGS_model),
  (258, 2, UINT8_t, parse_DIVE_SETTINGS_gf_low),
  (258, 3, UINT8_t, parse_DIVE_SETTINGS_gf_high),
  (258, 4, ENUM_t, parse_DIVE_SETTINGS_water_type),
  (258, 5, FLOAT_t, parse_DIVE_SETTINGS_water_density),
  (258, 6, UINT8_t, parse_DIVE_SETTINGS_po2_warn),
  (258, 7, UINT8_t, parse_DIVE_SETTINGS_po2_critical),
  (258, 8, UINT8_t, parse_DIVE_SETTINGS_po2_deco),
  (258, 9, ENUM_t, parse_DIVE_SETTINGS_safety_stop_enabled),
  (258, 10, FLOAT_t, parse_DIVE_SETTINGS_bottom_depth),
  (258, 11, UINT32_t, parse_DIVE_SETTINGS_bottom_time),
  (258, 12, ENUM_t, parse_DIVE_SETTINGS_apnea_countdown_enabled),
  (258, 13, UINT32_t, parse_DIVE_SETTINGS_apnea_countdown_time),
  (258, 14, ENUM_t, parse_DIVE_SETTINGS_backlight_mode),
  (258, 15, UINT8_t, parse_DIVE_SETTINGS_backlight_brightness),
  (258, 16, UINT8_t, parse_DIVE_SETTINGS_backlight_timeout),
  (258, 17, UINT16_t, parse_DIVE_SETTINGS_repeat_dive_interval),
  (258, 18, UINT16_t, parse_DIVE_SETTINGS_safety_stop_time),
  (258, 19, ENUM_t, parse_DIVE_SETTINGS_heart_rate_source_type),
  (258, 20, UINT8_t, parse_DIVE_SETTINGS_heart_rate_device_type),
  (258, 23, UINT8_t, parse_DIVE_SETTINGS_setpoint_low_cbar),
  (258, 24, UINT32_t, parse_DIVE_SETTINGS_setpoint_low_switch_depth_mm),
  (258, 26, UINT8_t, parse_DIVE_SETTINGS_setpoint_high_cbar),
  (258, 27, UINT32_t, parse_DIVE_SETTINGS_setpoint_high_switch_depth_mm),
  -- DIVE_GAS (259)
  (259, 0, UINT8_t, parse_DIVE_GAS_helium),
  (259, 1, UINT8_t, parse_DIVE_GAS_oxygen),
  (259, 2, ENUM_t, parse_DIVE_GAS_status),
  -- DIVE_SUMMARY (268)
  (268, 2, UINT32_t, parse_DIVE_SUMMARY_avg_depth),
  (268, 3, UINT32_t, parse_DIVE_SUMMARY_max_depth),
  (268, 4, UINT32_t, parse_DIVE_SUMMARY_surface_interval),
  (268, 5, UINT8_t, parse_DIVE_SUMMARY_start_cns),
  (268, 6, UINT8_t, parse_DIVE_SUMMARY_end_cns),
  (268, 7, UINT16_t, parse_DIVE_SUMMARY_start_n2),
  (268, 8, UINT16_t, parse_DIVE_SUMMARY_end_n2),
  (268, 9, UINT16_t, parse_DIVE_SUMMARY_o2_toxicity),
  (268, 10, UINT32_t, parse_DIVE_SUMMARY_dive_number),
  (268, 11, UINT32_t, parse_DIVE_SUMMARY_bottom_time),
  (268, 12, UINT16_t, parse_DIVE_SUMMARY_avg_pressure_sac),
  (268, 13, UINT16_t, parse_DIVE_SUMMARY_avg_volume_sac),
  (268, 14, UINT16_t, parse_DIVE_SUMMARY_avg_rmv),
  -- TANK_UPDATE (319)
  (319, 0, UINT32Z_t, parse_TANK_UPDATE_sensor),
  (319, 1, UINT16_t, parse_TANK_UPDATE_pressure),
  -- TANK_SUMMARY (323)
  (323, 0, UINT32Z_t, parse_TANK_SUMMARY_sensor),
  (323, 1, UINT16_t, parse_TANK_SUMMARY_start_pressure),
  (323, 2, UINT16_t, parse_TANK_SUMMARY_end_pressure),
  (323, 3, UINT32_t, parse_TANK_SUMMARY_volume_used)
]

/-- Per-message field lookup: `msg_desc->field[field_nr]` behind the
`field_nr < msg_desc->maxfield` bound (entries outside the table are NULL,
exactly the pairs absent from `garmin_field_table`). -/
def msg_field (msg fnr : Nat) : Option (FitFieldDecl × GarminHandler) :=
  (garmin_field_table.find? (fun e => e.1 == msg && e.2.1 == fnr)).map
    (fun e => e.2.2)

/-- The per-field dispatch of `traverse_regular`: field numbers 250/253/254
have a fixed meaning in every message; everything else goes through the
message's table. -/
def field_dispatch (msg fnr : Nat) : Option (FitFieldDecl × GarminHandler) :=
  if fnr = 250 then some (UINT32_t, parse_ANY_part_index)
  else if fnr = 253 then some (UINT32_t, parse_ANY_timestamp)
  else if fnr = 254 then some (UINT16_t, parse_ANY_message_index)
  else msg_field msg fnr

/-- The field loop of `traverse_regular`.  Arguments mirror the C locals:
current data pointer (as the remaining byte list), remaining `size`,
accumulated `total_len`, and the declared field triples still to walk.
Returns the parser, `some total_len` on success / `none` on a fatal error
(the C `-1`), and the samples emitted along the way. -/
def traverse_fields (msg : Nat) :
    GarminParser → List Nat → Nat → Nat → List (Nat × Nat × Nat) →
    GarminParser × Option Nat × List DcSample
  | g, _, _, total_len, [] => (g, some total_len, [])
  | g, data, size, total_len, (field_nr, len, bt_raw) :: rest =>
    let base_type := bt_raw &&& 0x7f
    if len = 0 then (g, none, [])
    else if size < len then (g, none, [])
    else if base_type > 16 then
      -- The C advances the data pointer by the whole remaining size and
      -- keeps iterating; its `len -= size` in this branch is dead and
      -- `size` itself is not reduced.
      traverse_fields msg g (data.drop size) size (total_len + size) rest
    else
      let base_size := base_type_size base_type
      if len % base_size ≠ 0 then (g, none, [])
      else
        let string_len := (data.take size).findIdx (fun b => b == 0)
        if base_type = 7 ∧ (string_len ≥ size ∨ len ≤ string_len) then
          (g, none, [])
        else
          let (g, out) :=
            match field_dispatch msg field_nr with
            | some (d, h) => apply_field_desc d h g base_type data
            | none => (g, [])  -- unknown_field: diagnostics only
          let (g, res, out2) :=
            traverse_fields msg g (data.drop len) (size - len) (total_len + len) rest
          (g, res, out ++ out2)

/-- `traverse_definition`: record the endianness, bind the local type slot
(low 4 bits of the record header) to the global message number, and copy the
declared field triples.  `none` models the `-1` returns (too many fields,
developer-field section present); the C mutates the slot before those checks,
but the whole decode aborts then, so the slot state is unobservable. -/
def traverse_definition (g : GarminParser) (data : List Nat) (record : Nat) :
    GarminParser × Option Nat :=
  let ltype := record &&& 0xf
  let big := data.getD 1 0 != 0
  let g := { g with is_big_endian := big }
  let msg := array_uint_endian (data.drop 2) 2 big
  let fields := data.getD 4 0
  if fields > MAXFIELDS then (g, none)
  else
    let len := 5 + fields * 3
    if record &&& 0x20 ≠ 0 then (g, none)  -- developer fields: unsupported
    else
      let triples := (List.range fields).map (fun i =>
        (data.getD (5 + i * 3) 0, data.getD (5 + i * 3 + 1) 0,
         data.getD (5 + i * 3 + 2) 0))
      ({ g with type_desc := g.type_desc.set ltype (some ⟨msg, triples⟩) },
       some len)

/-- The record loop of `traverse_data`.  `fuel` only bounds the recursion;
every iteration consumes at least two bytes of `datasize`, so the callers'
`datasize + 1` never runs out.  A record header with bit 0x80 is a
compressed-timestamp record: the C computes the new timestamp, but
`traverse_compressed` prints a diagnostic and returns -1, so the loop
converts it into `DC_STATUS_IO` and stops.  After each successfully parsed
record, pending data is flushed. -/
def traverse_records : Nat → GarminParser → List Nat → Nat → Nat →
    DcStatus × GarminParser × List DcSample
  | 0, g, _, _, _ => (.io, g, [])
  | fuel + 1, g, data, datasize, time =>
    if datasize = 0 then (.success, g, [])
    else
      let record := data.getD 0 0
      let data1 := data.drop 1
      let datasize1 := datasize - 1
      if record &&& 0x80 ≠ 0 then (.io, g, [])
      else
        let step : GarminParser × Option Nat × List DcSample :=
          if record &&& 0x40 ≠ 0 then
            let (g, res) := traverse_definition g data1 record
            (g, res, [])
          else
            match g.type_desc.getD (record &&& 0xf) none with
            | none => (g, none, [])  -- uninitialized type descriptor: fatal
            | some desc => traverse_fields desc.msg g data1 datasize1 0 desc.fields
        match step with
        | (g, none, out1) => (.io, g, out1)
        | (g, some len, out1) =>
          if len = 0 ∨ len > datasize1 then (.io, g, out1)
          else
            let (g, out2) :=
              if g.record_data.pending ≠ 0 then flush_pending_record g
              else (g, [])
            let (st, g, out3) :=
              traverse_records fuel g (data1.drop len) (datasize1 - len) time
            (st, g, out1 ++ out2 ++ out3)

/-- `traverse_data` (part_006): reset the pending record and the local type
table, skip the 24-byte filename fingerprint, validate the FIT header
(length, `.FIT` magic at offset 8, size consistency), then walk the records.
All failures are `DC_STATUS_IO`. -/
def traverse_data (g : GarminParser) (input : List Nat) :
    DcStatus × GarminParser × List DcSample :=
  let g := { g with record_data := {}, type_desc := List.replicate MAXTYPE none }
  let len := input.length
  if len < FIT_NAME_SIZE then (.io, g, [])
  else
    let data := input.drop FIT_NAME_SIZE
    let len := len - FIT_NAME_SIZE
    if len < 12 then (.io, g, [])
    else
      let hdrsize := data.getD 0 0
      let protocol := data.getD 1 0
      let profile := array_uint16_le (data.drop 2)
      let datasize := array_uint32_le (data.drop 4)
      if ¬(data.getD 8 0 = 0x2E ∧ data.getD 9 0 = 0x46 ∧
           data.getD 10 0 = 0x49 ∧ data.getD 11 0 = 0x54) then (.io, g, [])
      else if hdrsize < 12 ∨ datasize > len ∨ datasize + hdrsize + 2 > len then
        (.io, g, [])
      else
        let g := { g with dive := { g.dive with
          protocol := protocol, profile := profile } }
        traverse_records (datasize + 1) g (data.drop hdrsize) datasize 0

/-! ## set_data / samples_foreach / get_field / is_dive -/

/-- Zero-padded decimal (the `%0Nu` conversions). -/
def natPad (w n : Nat) : String :=
  let s := toString n
  String.mk (List.replicate (w - s.length) '0') ++ s

/-- Lower-case hexadecimal (the `%x` conversion). -/
def natHex (n : Nat) : String := String.mk (Nat.toDigits 16 n)

/-- The integer-only coordinate formatting of `add_gps_string`:
`sign`, `(360*|v|) >> 32` degrees, and a six-digit truncated fraction. -/
def fmt_gps_coord (v : Int) : String :=
  let sign := if v < 0 then "-" else ""
  let a := v.natAbs
  let tmp := 360 * a
  let deg := tmp / 2 ^ 32
  let frac := tmp % 2 ^ 32 * 1000000 / 2 ^ 32
  sign ++ toString deg ++ "." ++ natPad 6 frac

/-- `add_gps_string`: only positions with both coordinates nonzero are
reported. -/
def add_gps_string (g : GarminParser) (desc : String) (pos : GarminPos) :
    GarminParser :=
  if pos.lat ≠ 0 ∧ pos.lon ≠ 0 then
    { g with cache := (dc_field_add_string_fmt g.cache desc
        (fmt_gps_coord pos.lat ++ ", " ++ fmt_gps_coord pos.lon)).2 }
  else g

def sensor_names : List String :=
  ["Sensor 1", "Sensor 2", "Sensor 3", "Sensor 4", "Sensor 5"]

/-- `add_sensor_string` applied to each registered sensor. -/
def add_sensor_strings (g : GarminParser) : GarminParser :=
  (List.range g.dive.nr_sensor).foldl
    (fun g i =>
      { g with cache := (dc_field_add_string_fmt g.cache
          (sensor_names.getD i "")
          (natHex ((g.dive.sensor.getD i {}).sensor_id))).2 })
    g

/-- The tail of `garmin_parser_set_data` after the `traverse_data` walk:
populate the device/GPS/sensor/setpoint strings and bump the gas count to
the sensor count. -/
def set_data_postlude (g : GarminParser) : GarminParser :=
  let g := { g with cache := (dc_field_add_string_fmt g.cache "Serial"
      (toString g.dive.serial)).2 }
  let g := { g with cache := (dc_field_add_string_fmt g.cache "Firmware"
      (toString (g.dive.firmware / 100) ++ "." ++
        natPad 2 (g.dive.firmware % 100))).2 }
  let g := add_gps_string g "GPS1" g.gps.session_entry
  let g := add_gps_string g "GPS2" g.gps.session_exit
  let g := add_gps_string g "Session NE corner GPS" g.gps.session_NE
  let g := add_gps_string g "Session SW corner GPS" g.gps.session_SW
  let g := add_gps_string g "Lap entry GPS" g.gps.lap_entry
  let g := add_gps_string g "Lap exit GPS" g.gps.lap_exit
  let g := add_gps_string g "Lap some GPS" g.gps.lap_some
  let g := add_gps_string g "Lap other GPS" g.gps.lap_other
  let g := add_gps_string g "Record GPS" g.gps.record
  -- (the per-sensor tank info loop in the C source is empty)
  let g :=
    if g.dive.nr_sensor > g.cache.GASMIX_COUNT then
      { g with cache := { g.cache with
          GASMIX_COUNT := g.dive.nr_sensor,
          initialized := .GASMIX_COUNT :: g.cache.initialized } }
    else g
  let g := add_sensor_strings g
  let g := { g with cache := (dc_field_add_string_fmt g.cache
      "Setpoint low auto switch depth [m]"
      (toString (g.dive.setpoint_low_switch_depth_mm / 1000) ++ "." ++
        toString (g.dive.setpoint_low_switch_depth_mm % 1000 / 100))).2 }
  let g := { g with cache := (dc_field_add_string_fmt g.cache
      "Setpoint high auto switch depth [m]"
      (toString (g.dive.setpoint_high_switch_depth_mm / 1000) ++ "." ++
        toString (g.dive.setpoint_high_switch_depth_mm % 1000 / 100))).2 }
  g

/-- `garmin_parser_set_data`: reset all per-dive state, walk the data once
with no callback — note that the status of `traverse_data` is ignored — then
run the string postlude, and always return `DC_STATUS_SUCCESS`. -/
def garmin_parser_set_data (input : List Nat) : DcStatus × GarminParser :=
  let g : GarminParser := {}
  let (_, g, _) := traverse_data g input
  (.success, set_data_postlude g)

/-- `garmin_parser_get_field` just delegates to the generic field cache. -/
def garmin_parser_get_field (g : GarminParser) (ftype : DcFieldType)
    (flags : Nat) : DcStatus × Option DcFieldValue :=
  dc_field_get g.cache ftype flags

/-- `garmin_parser_samples_foreach`: replay the walk with a callback over
the state left behind by `set_data`. -/
def garmin_parser_samples_foreach (g : GarminParser) (input : List Nat) :
    DcStatus × GarminParser × List DcSample :=
  traverse_data { g with hasCallback := true } input

/-- The full caller pipeline: `set_data` then `samples_foreach`. -/
def garmin_samples (input : List Nat) : DcStatus × List DcSample :=
  let (_, g) := garmin_parser_set_data input
  let (st, _, out) := garmin_parser_samples_foreach g input
  (st, out)

/-- `garmin_parser_is_dive` (part_006): run `set_data`, then recognise the
dive sub-sports 53/54/55/56/57/63, falling back on a nonzero average depth
from the DIVE_SUMMARY record. -/
def garmin_parser_is_dive (input : List Nat) : Bool :=
  let (_, g) := garmin_parser_set_data input
  if g.dive.sub_sport = 53 ∨ g.dive.sub_sport = 54 ∨ g.dive.sub_sport = 55 ∨
     g.dive.sub_sport = 56 ∨ g.dive.sub_sport = 57 ∨ g.dive.sub_sport = 63 then
    true
  else
    -- assume it's a dive if we've seen an average depth
    g.cache.AVGDEPTH != 0

/-! ## Garmin USB-storage device enumeration (garmin_parser.c, device part)

The directory walk, file reads, progress events and the cancellation flag
are transport concerns; the model takes the directory as a list of
`(name, contents)` entries, reads always succeed, and the cancellation flag
is never set. -/

/-- One directory entry / FIT file: the 24-byte `fit_name` (23 characters
plus the NUL terminator) and the file's contents. -/
structure GFile where
  fname : List Nat
  content : List Nat
  deriving DecidableEq, Repr

/-- C `strlen` on a byte list (stops at the end of the list if no NUL). -/
def cstrlen (p : List Nat) : Nat := p.findIdx (fun b => b == 0)

/-- The bytes of a C string up to its NUL terminator. -/
def cstr (p : List Nat) : List Nat := p.takeWhile (fun b => b != 0)

def byte_tolower (b : Nat) : Nat := if 65 ≤ b ∧ b ≤ 90 then b + 32 else b

/-- The filter of `get_file_list`: names of length `FIT_NAME_SIZE - 1`
ending in ".fit" (case-insensitive `strncasecmp` with ".FIT"). -/
def fit_name_ok (f : GFile) : Bool :=
  cstrlen f.fname = FIT_NAME_SIZE - 1 &&
  ((f.fname.drop (FIT_NAME_SIZE - 1 - 4)).take 4).map byte_tolower
    = [0x2E, 0x66, 0x69, 0x74]

/-- `strcmp(a, b) ≤ 0` on NUL-terminated byte strings. -/
def bytes_le : List Nat → List Nat → Bool
  | [], _ => true
  | _ :: _, [] => false
  | x :: xs, y :: ys =>
    if x < y then true else if y < x then false else bytes_le xs ys

def cstr_le (a b : List Nat) : Bool := bytes_le (cstr a) (cstr b)

/-- Insertion step of the newest-first sort (`name_cmp` compares `(b, a)`,
i.e. reverse string order, so larger names come first). -/
def insert_name_desc (f : GFile) : List GFile → List GFile
  | [] => [f]
  | x :: xs =>
    if cstr_le x.fname f.fname then f :: x :: xs else x :: insert_name_desc f xs

/-- `get_file_list`: keep the well-formed .fit names and sort them in
reverse string order (newest first). -/
def get_file_list (entries : List GFile) : List GFile :=
  (entries.filter fit_name_ok).foldl (fun acc f => insert_name_desc f acc) []

/-- The fingerprint scan of `garmin_device_foreach`: cut the (sorted) file
array short at the first name equal to the stored fingerprint, so that the
matching file and everything older are not visited at all. -/
def cut_at_fingerprint (fp : List Nat) : List GFile → List GFile
  | [] => []
  | f :: rest =>
    if f.fname = fp then [] else f :: cut_at_fingerprint fp rest

/-- The per-file loop of `garmin_device_foreach`: the parser data is the
24-byte name followed by the file contents; files the parser does not
recognise as dives are skipped silently; the callback returning false stops
the enumeration (after that dive was delivered). -/
def garmin_foreach_loop (cb : List Nat → List Nat → Bool) :
    List GFile → List (List Nat × List Nat)
  | [] => []
  | f :: rest =>
    let fdata := f.fname ++ f.content
    if ¬garmin_parser_is_dive fdata then garmin_foreach_loop cb rest
    else if cb fdata f.fname then (fdata, f.fname) :: garmin_foreach_loop cb rest
    else [(fdata, f.fname)]

/-- `garmin_device_foreach` over a modelled `Garmin/Activity` directory:
list, sort, cut at the fingerprint, then deliver.  Returns the delivered
`(dive bytes, fingerprint)` pairs in callback order. -/
def garmin_device_foreach (fp : List Nat) (entries : List GFile)
    (cb : List Nat → List Nat → Bool) : DcStatus × List (List Nat × List Nat) :=
  let files := get_file_list entries
  let files := cut_at_fingerprint fp files
  (.success, garmin_foreach_loop cb files)

/-! ## Oceans S1 device enumeration (oceans_s1.c)

`oceans_s1_device_foreach` first builds `divelist` — newest dive first, by
construction of `s1_add_dive` — from the text blob; the model starts from
that list.  `get_one_dive` returns each dive's text blob; transport failures
and cancellation are not modelled. -/

/-- One entry of the S1 `divelist`: dive number, the 32-byte fingerprint
(the `dive ...` line NUL-padded), and the dive's blob. -/
structure S1Dive where
  nr : Nat
  fingerprint : List Nat
  blob : List Nat
  deriving DecidableEq, Repr

/-- The delivery loop of `oceans_s1_device_foreach`: stop *before*
delivering a dive whose fingerprint equals the stored one; a false callback
return stops after delivery. -/
def s1_foreach_loop (fp : List Nat) (cb : S1Dive → Bool) :
    List S1Dive → List S1Dive
  | [] => []
  | d :: rest =>
    if d.fingerprint = fp then []
    else if cb d then d :: s1_foreach_loop fp cb rest
    else [d]

def oceans_s1_device_foreach (fp : List Nat) (divelist : List S1Dive)
    (cb : S1Dive → Bool) : DcStatus × List S1Dive :=
  (.success, s1_foreach_loop fp cb divelist)

/-! ## Oceans S1 parser (oceans_s1_parser.c)

The dive text is a sequence of lines.  The `strncmp`/`sscanf` line
classification is modelled by an inductive line type carrying the parsed
numeric fields (the grammar of §4.9: unsigned decimal fields); a line
matching none of the patterns is `junk`. -/

inductive S1Line where
  | divelog (interval : Nat)
  | dive (nr unknown o2 : Nat) (date : Int)
  | contLine (depth seconds : Nat)
  | enddive (maxdepth duration : Nat)
  | sample (depth temp flags : Nat)
  | junk
  deriving DecidableEq, Repr

/-- `oceans_s1_parser_t` state plus its field cache. -/
structure S1Parser where
  divenr : Nat := 0
  maxdepth : Nat := 0
  duration : Nat := 0
  date : Int := 0
  cache : DcFieldCache := {}
  deriving DecidableEq, Repr

/-- One iteration of the line loop of `oceans_s1_parse_dive`.  Returns the
updated parser, sample interval, sample time, and the emitted samples.
The `continue` line injects the surrounding pair of surface samples only
when the surface interval is at least twice the sample interval. -/
def oceans_s1_parse_line (s1 : S1Parser) (cb : Bool)
    (sample_interval sample_time : Nat) :
    S1Line → S1Parser × Nat × Nat × List DcSample
  | .divelog interval => (s1, interval, sample_time, [])
  | .dive nr _unknown o2 date =>
    let s1 := { s1 with divenr := nr, date := date }
    let s1 :=
      if o2 ≠ 0 then
        { s1 with cache := { s1.cache with
            GASMIX_COUNT := 1,
            GASMIX := s1.cache.GASMIX.set 0 { oxygen := (o2 : ℚ) / 100 },
            initialized := .GASMIX :: .GASMIX_COUNT :: s1.cache.initialized } }
      else s1
    (s1, sample_interval, sample_time, [])
  | .contLine depth seconds =>
    -- Create surface samples for the surface time, and then a depth sample
    -- at the stated depth
    let out : List DcSample :=
      if cb then
        (if seconds ≥ sample_interval * 2 then
          [.time (sample_time + sample_interval), .depth 0,
           .time (sample_time + seconds - sample_interval), .depth 0]
        else []) ++
        [.time (sample_time + seconds), .depth ((depth : ℚ) / 100)]
      else []
    (s1, sample_interval, sample_time + seconds, out)
  | .enddive maxdepth duration =>
    ({ s1 with
        maxdepth := maxdepth,
        duration := duration,
        cache := { s1.cache with
          MAXDEPTH := (maxdepth : ℚ) / 100,
          DIVETIME := duration,
          initialized := .DIVETIME :: .MAXDEPTH :: s1.cache.initialized } },
     sample_interval, sample_time, [])
  | .sample depth temp _flags =>
    let sample_time := sample_time + sample_interval
    let out : List DcSample :=
      if cb then
        [.time sample_time, .depth ((depth : ℚ) / 100),
         .temperature (temp : ℚ)]
      else []
    (s1, sample_interval, sample_time, out)
  | .junk => (s1, sample_interval, sample_time, [])

/-- The line loop. -/
def oceans_s1_run (cb : Bool) :
    S1Parser → Nat → Nat → List S1Line → S1Parser × List DcSample
  | s1, _, _, [] => (s1, [])
  | s1, interval, time, l :: rest =>
    let (s1, interval, time, out) := oceans_s1_parse_line s1 cb interval time l
    let (s1, out2) := oceans_s1_run cb s1 interval time rest
    (s1, out ++ out2)

/-- `oceans_s1_parse_dive`: reset the cache, default the sample interval to
10 s and the sample time to 0, then walk the lines. -/
def oceans_s1_parse_dive (lines : List S1Line) (cb : Bool) :
    S1Parser × List DcSample :=
  oceans_s1_run cb {} 10 0 lines

/-- `oceans_s1_parser_set_data`: the callback-less walk. -/
def oceans_s1_parser_set_data (lines : List S1Line) : DcStatus × S1Parser :=
  ((.success : DcStatus), (oceans_s1_parse_dive lines false).1)

/-- `oceans_s1_parser_samples_foreach`. -/
def oceans_s1_parser_samples_foreach (lines : List S1Line) :
    DcStatus × List DcSample :=
  ((.success : DcStatus), (oceans_s1_parse_dive lines true).2)

/-! # Claims -/

/-! ## C7 — McLean frame and checksum -/

/-- C7: the claim states that `mclean_extreme_send` frames
`0x7E 0x00 u32le(n) cmd payload u16be(crc) 0x00 0x00` with `crc` the
CRC-16/XMODEM (polynomial 0x1021, MSB-first, init 0) of the bytes from the
0x00 after the STX through the payload.  The framing is as claimed, but the
code's `checksum_crc` performs a single polynomial step per byte instead of
eight, so the transmitted checksum is not the XMODEM CRC: for
`CMD_COMPUTER` (0xA0) with an empty payload the code emits 0x5021 where
CRC-16/XMODEM of the covered bytes is 0xB5EA. -/
theorem C7_mclean_crc_bug :
    mclean_extreme_send_frame 0xA0 [] =
      some [0x7E, 0x00, 0x00, 0x00, 0x00, 0x00, 0xA0, 0x50, 0x21, 0x00, 0x00] ∧
    checksum_crc [0x00, 0x00, 0x00, 0x00, 0x00, 0xA0] 0 = 0x5021 ∧
    crc16_xmodem [0x00, 0x00, 0x00, 0x00, 0x00, 0xA0] 0 = 0xB5EA ∧
    (0x5021 : Nat) ≠ 0xB5EA := by decide

/-! ## C1 — Gasmix flush -/

/-- A pending enabled gas record at index 1 (He 20%, O₂ 18%). -/
def c1_g0 : GarminParser :=
  { record_data :=
      { pending := RECORD_GASMIX,
        index := 1,
        gas_status := 1,
        gasmix := { helium := 1 / 5, oxygen := 9 / 50 } } }

/-- The state after flushing `c1_g0`, with a second pending enabled gas
record queued at index 0 (O₂ 32%). -/
def c1_g1 : GarminParser :=
  let g := (flush_pending_record c1_g0).1
  { g with record_data := { g.record_data with
      pending := RECORD_GASMIX,
      index := 0,
      gas_status := 1,
      gasmix := { oxygen := 8 / 25 } } }

/-- C1 counterexample: flushing enabled gases first at index 1 and then at
index 0 leaves `GASMIX_COUNT = 1`, not the claimed
`max(previous count, index+1) = 2`: the code assigns `index + 1`
unconditionally. -/
theorem C1_counterexample :
    (flush_pending_record c1_g0).1.cache.GASMIX_COUNT = 2 ∧
    (flush_pending_record c1_g1).1.cache.GASMIX_COUNT = 1 ∧
    (flush_pending_record c1_g1).1.cache.GASMIX_COUNT ≠ 2 := by decide

/-- C1 (amended): in the no-callback flush, a pending Gasmix record with
`gas_status > 0` and `0 ≤ index < 16` stores the record's mix at that index
and sets `GASMIX_COUNT` to `index + 1` — unconditionally, not to
`max(previous count, index+1)`. -/
lemma add_string_fmt_GASMIX (c : DcFieldCache) (d v : String) :
    ((dc_field_add_string_fmt c d v).2).GASMIX = c.GASMIX := by
  cases h : addStringAux d v c.strings <;>
    simp [dc_field_add_string_fmt, dc_field_add_string, h]

lemma add_string_fmt_GASMIX_COUNT (c : DcFieldCache) (d v : String) :
    ((dc_field_add_string_fmt c d v).2).GASMIX_COUNT = c.GASMIX_COUNT := by
  cases h : addStringAux d v c.strings <;>
    simp [dc_field_add_string_fmt, dc_field_add_string, h]

lemma flush_nc_device_info_cache (p : Nat) (r : RecordData) (g : GarminParser) :
    (flush_nc_device_info p r g).cache = g.cache := by
  unfold flush_nc_device_info
  split <;> rfl

lemma flush_nc_sensor_profile_cache (p : Nat) (r : RecordData)
    (g : GarminParser) :
    (flush_nc_sensor_profile p r g).cache = g.cache := by
  unfold flush_nc_sensor_profile
  repeat' split
  all_goals rfl

lemma flush_nc_deco_model_GASMIX (p : Nat) (r : RecordData) (g : GarminParser) :
    (flush_nc_deco_model p r g).cache.GASMIX = g.cache.GASMIX := by
  unfold flush_nc_deco_model
  split <;> simp [add_string_fmt_GASMIX]

lemma flush_nc_deco_model_GASMIX_COUNT (p : Nat) (r : RecordData)
    (g : GarminParser) :
    (flush_nc_deco_model p r g).cache.GASMIX_COUNT = g.cache.GASMIX_COUNT := by
  unfold flush_nc_deco_model
  split <;> simp [add_string_fmt_GASMIX_COUNT]

theorem C1_gasmix_flush (g : GarminParser) (hcb : g.hasCallback = false)
    (hpend : g.record_data.pending &&& RECORD_GASMIX ≠ 0)
    (hstat : 0 < g.record_data.gas_status)
    (_h0 : 0 ≤ g.record_data.index) (h16 : g.record_data.index < 16) :
    (flush_pending_record g).1.cache.GASMIX =
      g.cache.GASMIX.set g.record_data.index.toNat g.record_data.gasmix ∧
    (flush_pending_record g).1.cache.GASMIX_COUNT =
      g.record_data.index.toNat + 1 := by
  unfold flush_pending_record
  simp only [hcb, Bool.not_false, if_true]
  constructor
  · simp only [flush_nc_sensor_profile_cache, flush_nc_deco_model_GASMIX,
      flush_nc_device_info_cache]
    unfold flush_nc_gasmix
    rw [if_pos hpend, if_pos ⟨hstat, h16⟩]
  · simp only [flush_nc_sensor_profile_cache, flush_nc_deco_model_GASMIX_COUNT,
      flush_nc_device_info_cache]
    unfold flush_nc_gasmix
    rw [if_pos hpend, if_pos ⟨hstat, h16⟩]

/-- C1 witness: the amended theorem applied to the concrete state `c1_g0`. -/
theorem C1_gasmix_flush_witness :
    (flush_pending_record c1_g0).1.cache.GASMIX_COUNT = 2 :=
  (C1_gasmix_flush c1_g0 (by decide) (by decide) (by decide) (by decide)
    (by decide)).2

/-! ## C4 — Gas-mix retrieval bound -/

/-- The cache after a single gas flushed at index 0: `GASMIX_COUNT = 1`. -/
def c4_cache : DcFieldCache :=
  (flush_pending_record
    { record_data :=
        { pending := RECORD_GASMIX,
          index := 0,
          gas_status := 1,
          gasmix := { oxygen := 8 / 25 } } }).1.cache

/-- C4 counterexample: with `GASMIX_COUNT = 1`, retrieving gas index 1
succeeds (returning the zero mix) instead of the claimed `Unsupported`:
`dc_field_get` bounds the index by `MAXGASES`, not by the count. -/
theorem C4_counterexample :
    c4_cache.GASMIX_COUNT = 1 ∧
    (dc_field_get c4_cache .GASMIX 1).1 = .success ∧
    (dc_field_get c4_cache .GASMIX 1).1 ≠ .unsupported := by decide

/-- C4 (amended): `get_field(GASMIX, i)` returns `Unsupported` exactly when
`i ≥ MAXGASES (16)` or the GASMIX initialised bit is clear; any `i < 16`
with the bit set — including every `i ≥ GASMIX_COUNT` — returns `Success`.
-/
theorem C4_gasmix_get (cache : DcFieldCache) (i : Nat) :
    (DcFieldType.GASMIX ∈ cache.initialized → i < MAXGASES →
      (dc_field_get cache .GASMIX i).1 = .success) ∧
    (MAXGASES ≤ i → (dc_field_get cache .GASMIX i).1 = .unsupported) ∧
    (DcFieldType.GASMIX ∉ cache.initialized →
      (dc_field_get cache .GASMIX i).1 = .unsupported) := by
  refine ⟨fun hmem hi => ?_, fun hi => ?_, fun hmem => ?_⟩
  · simp [dc_field_get, hmem, Nat.not_le.mpr hi]
  · by_cases hmem : DcFieldType.GASMIX ∈ cache.initialized
    · simp [dc_field_get, hmem, hi]
    · simp [dc_field_get, hmem]
  · simp [dc_field_get, hmem]

/-- C4 witness: the amended theorem applied to the concrete `c4_cache` at
indices 1 (in range, bit set → success) and 20 (out of range). -/
theorem C4_gasmix_get_witness :
    (dc_field_get c4_cache .GASMIX 1).1 = .success ∧
    (dc_field_get c4_cache .GASMIX 20).1 = .unsupported :=
  ⟨(C4_gasmix_get c4_cache 1).1 (by decide) (by decide),
   (C4_gasmix_get c4_cache 20).2.1 (by decide)⟩

/-! ## C8 — Oceans S1 `continue` lines -/

/-- C8 counterexample: with the default 10 s interval, the line
`continue 500,15` emits only `Time(15), Depth(5)`; the claimed surrounding
pair of surface samples is absent, because the code injects it only when
the surface interval is at least twice the sample interval. -/
theorem C8_counterexample :
    (oceans_s1_parser_samples_foreach [.dive 1 0 21 100, .contLine 500 15]).2 =
      [.time 15, .depth 5] ∧
    (oceans_s1_parser_samples_foreach [.dive 1 0 21 100, .contLine 500 15]).2 ≠
      [.time 10, .depth 0, .time 5, .depth 0, .time 15, .depth 5] := by
  have h : (oceans_s1_parser_samples_foreach
      [.dive 1 0 21 100, .contLine 500 15]).2 = [.time 15, .depth 5] := by
    simp [oceans_s1_parser_samples_foreach, oceans_s1_parse_dive, oceans_s1_run,
      oceans_s1_parse_line]
    norm_num
  refine ⟨h, ?_⟩
  rw [h]
  intro hc
  simpa using congrArg List.length hc

/-- C8 (amended): a `continue bottom_depth,surface_seconds` line emits the
surrounding pair of surface samples — `Time(start+interval), Depth(0)` and
`Time(start+surface_seconds−interval), Depth(0)` — only when
`surface_seconds ≥ 2 × sample_interval`, always followed by
`Time(start+surface_seconds)` with `Depth(bottom_depth/100)`; the sample
interval defaults to 10 s (witnessed by the closing concrete run). -/
theorem C8_continue_samples :
    (∀ (s1 : S1Parser) (interval time depth seconds : Nat),
      oceans_s1_parse_line s1 true interval time (.contLine depth seconds) =
        (s1, interval, time + seconds,
          (if seconds ≥ interval * 2 then
            [.time (time + interval), .depth 0,
             .time (time + seconds - interval), .depth 0]
          else []) ++
          [.time (time + seconds), .depth ((depth : ℚ) / 100)])) ∧
    (oceans_s1_parser_samples_foreach [.contLine 500 25]).2 =
      [.time 10, .depth 0, .time 15, .depth 0, .time 25, .depth 5] := by
  constructor
  · intro s1 interval time depth seconds
    rfl
  · simp [oceans_s1_parser_samples_foreach, oceans_s1_parse_dive, oceans_s1_run,
      oceans_s1_parse_line]
    norm_num

/-! ## C3 — set_data error state -/

/-- The header-stage failure conditions of `traverse_data`, in the order the
code checks them: input shorter than the 24-byte fingerprint, FIT header
shorter than 12 bytes, missing `.FIT` magic at offset 8, or inconsistent
size information. -/
def fit_header_malformed (input : List Nat) : Prop :=
  input.length < FIT_NAME_SIZE ∨
  input.length - FIT_NAME_SIZE < 12 ∨
  ¬((input.drop FIT_NAME_SIZE).getD 8 0 = 0x2E ∧
    (input.drop FIT_NAME_SIZE).getD 9 0 = 0x46 ∧
    (input.drop FIT_NAME_SIZE).getD 10 0 = 0x49 ∧
    (input.drop FIT_NAME_SIZE).getD 11 0 = 0x54) ∨
  ((input.drop FIT_NAME_SIZE).getD 0 0 < 12 ∨
   array_uint32_le ((input.drop FIT_NAME_SIZE).drop 4) >
     input.length - FIT_NAME_SIZE ∨
   array_uint32_le ((input.drop FIT_NAME_SIZE).drop 4) +
     (input.drop FIT_NAME_SIZE).getD 0 0 + 2 > input.length - FIT_NAME_SIZE)

instance (input : List Nat) : Decidable (fit_header_malformed input) := by
  unfold fit_header_malformed
  infer_instance

/-- A malformed header makes `traverse_data` return `Io` with nothing but
the record-data/type-table reset applied to the parser. -/
lemma traverse_data_malformed (g : GarminParser) (input : List Nat)
    (h : fit_header_malformed input) :
    traverse_data g input =
      (.io, { g with
        record_data := {},
        type_desc := List.replicate MAXTYPE none }, []) := by
  by_cases h1 : input.length < FIT_NAME_SIZE
  · simp only [traverse_data]
    rw [if_pos h1]
  · by_cases h2 : input.length - FIT_NAME_SIZE < 12
    · simp only [traverse_data]
      rw [if_neg h1, if_pos h2]
    · by_cases h3 : ¬((input.drop FIT_NAME_SIZE).getD 8 0 = 0x2E ∧
          (input.drop FIT_NAME_SIZE).getD 9 0 = 0x46 ∧
          (input.drop FIT_NAME_SIZE).getD 10 0 = 0x49 ∧
          (input.drop FIT_NAME_SIZE).getD 11 0 = 0x54)
      · simp only [traverse_data]
        rw [if_neg h1, if_neg h2, if_pos h3]
      · by_cases h4 : ((input.drop FIT_NAME_SIZE).getD 0 0 < 12 ∨
            array_uint32_le ((input.drop FIT_NAME_SIZE).drop 4) >
              input.length - FIT_NAME_SIZE ∨
            array_uint32_le ((input.drop FIT_NAME_SIZE).drop 4) +
              (input.drop FIT_NAME_SIZE).getD 0 0 + 2 >
              input.length - FIT_NAME_SIZE)
        · simp only [traverse_data]
          rw [if_neg h1, if_neg h2, if_neg h3, if_pos h4]
        · exfalso
          unfold fit_header_malformed at h
          rcases h with h | h | h | h
          · exact h1 h
          · exact h2 h
          · exact h3 h
          · exact h4 h

/-- After a header-stage failure the parser `set_data` leaves behind does
not depend on the input at all: it equals the state for the empty input. -/
lemma set_data_malformed (input : List Nat) (h : fit_header_malformed input) :
    garmin_parser_set_data input = garmin_parser_set_data [] := by
  simp only [garmin_parser_set_data]
  rw [traverse_data_malformed {} input h,
      traverse_data_malformed {} [] (by decide)]

/-- C3 counterexample: after the 24-byte prefix the FIT header here is 3
bytes (< 12), so the decode fails — yet `set_data` returns `Success`, not
the claimed `Io` (the C ignores `traverse_data`'s status), and
`get_field(STRING, 0)` returns `Success` (the Serial/Firmware/setpoint
strings are always added), not the claimed `Unsupported`. -/
def c3_input : List Nat := List.replicate 24 0 ++ [12, 0x10, 0]

theorem C3_counterexample :
    (garmin_parser_set_data c3_input).1 = .success ∧
    (garmin_parser_set_data c3_input).1 ≠ .io ∧
    (garmin_parser_get_field (garmin_parser_set_data c3_input).2 .STRING 0).1
      = .success ∧
    (garmin_parser_get_field (garmin_parser_set_data c3_input).2 .STRING 0).1
      ≠ .unsupported := by decide

/-- C3 (amended): on a FIT input whose header fails validation (§B1/B2 and
the size check), `set_data` swallows the `Io` from `traverse_data` and
returns `Success`; every numeric field type then reads back `Unsupported`
(no scalar field is initialised), but the always-added device strings make
`get_field(DC_FIELD_STRING, 0)` return `Success`. -/
theorem C3_set_data_error_state (input : List Nat)
    (h : fit_header_malformed input) :
    (garmin_parser_set_data input).1 = .success ∧
    (∀ t : DcFieldType, t ≠ .STRING → ∀ flags,
      (garmin_parser_get_field (garmin_parser_set_data input).2 t flags).1
        = .unsupported) ∧
    (garmin_parser_get_field (garmin_parser_set_data input).2 .STRING 0).1
      = .success := by
  rw [set_data_malformed input h]
  refine ⟨by decide, ?_, by decide⟩
  intro t ht flags
  have hmem : t ∉ (garmin_parser_set_data []).2.cache.initialized := by
    cases t <;> first | (exact absurd rfl ht) | decide
  simp [garmin_parser_get_field, dc_field_get, hmem]

/-- C3 witness: the amended theorem applied to the concrete short-header
input. -/
theorem C3_set_data_error_state_witness :
    (garmin_parser_set_data c3_input).1 = .success ∧
    (garmin_parser_get_field (garmin_parser_set_data c3_input).2 .DIVETIME 0).1
      = .unsupported :=
  ⟨(C3_set_data_error_state c3_input (by decide)).1,
   (C3_set_data_error_state c3_input (by decide)).2.1 .DIVETIME (by decide) 0⟩

/-! ## C2 — compressed-timestamp records -/

/-- A definition record installing local type 0 as RECORD (global 20) with
a single timestamp field, followed by a compressed-timestamp record
(header byte 0x85: bit 0x80 set, local type 0, delta 5). -/
def c2_body : List Nat := [0x40, 0, 0, 20, 0, 1, 253, 4, 0x86] ++ [0x85]

/-- An otherwise well-formed FIT input containing `c2_body`. -/
def c2_input : List Nat :=
  List.replicate 24 0 ++
  [12, 0x10, 0, 0, c2_body.length, 0, 0, 0, 0x2E, 0x46, 0x49, 0x54] ++
  c2_body ++ [0, 0]

/-- C2 counterexample: on this input — whose compressed-timestamp record
references the local type installed by the preceding definition record —
decoding does *not* continue: `samples_foreach` returns `Io` and emits
nothing, because `traverse_compressed` is an unimplemented stub returning
-1. -/
theorem C2_counterexample :
    (garmin_samples c2_input).1 = .io ∧
    (garmin_samples c2_input).1 ≠ .success ∧
    (garmin_samples c2_input).2 = [] := by decide

/-- C2 (amended): whenever the record loop meets a record-header byte with
bit 0x80 set — whatever the local type table holds — the Garmin decoder
aborts with `Io` at that record: it is not treated as a data record, no
pending-record flush runs, and no further records are decoded (the C
computes the adjusted timestamp first, but `traverse_compressed` returns
-1 unconditionally). -/
theorem C2_compressed_aborts (fuel : Nat) (g : GarminParser)
    (data : List Nat) (datasize time : Nat) (hfuel : 0 < fuel)
    (hsize : 0 < datasize) (hbit : data.getD 0 0 &&& 0x80 ≠ 0) :
    traverse_records fuel g data datasize time = (.io, g, []) := by
  cases fuel with
  | zero => omega
  | succ n =>
    unfold traverse_records
    rw [if_neg (by omega)]
    rw [if_pos hbit]

/-- C2 witness: the amended theorem at a concrete one-byte record stream. -/
theorem C2_compressed_aborts_witness :
    traverse_records 1 {} [0x85] 1 0 = (.io, {}, []) :=
  C2_compressed_aborts 1 {} [0x85] 1 0 (by decide) (by decide) (by decide)

/-! ## C6 — fingerprint halt -/

lemma cut_at_fingerprint_eq_takeWhile (fp : List Nat) (l : List GFile) :
    cut_at_fingerprint fp l = l.takeWhile (fun f => f.fname != fp) := by
  induction l with
  | nil => rfl
  | cons f rest ih =>
    by_cases h : f.fname = fp
    · simp [cut_at_fingerprint, List.takeWhile_cons, h]
    · simp [cut_at_fingerprint, List.takeWhile_cons, h, ih]

lemma s1_foreach_loop_spec (fp : List Nat) (cb : S1Dive → Bool) :
    ∀ (l : List S1Dive) (d : S1Dive), d ∈ s1_foreach_loop fp cb l →
      d.fingerprint ≠ fp ∧ d ∈ l.takeWhile (fun x => x.fingerprint != fp) := by
  intro l
  induction l with
  | nil => intro d hd; simp [s1_foreach_loop] at hd
  | cons x rest ih =>
    intro d hd
    by_cases hfp : x.fingerprint = fp
    · simp [s1_foreach_loop, hfp] at hd
    · rw [s1_foreach_loop, if_neg hfp] at hd
      by_cases hcb : cb x
      · rw [if_pos hcb] at hd
        rcases List.mem_cons.mp hd with h | h
        · subst h
          simp [List.takeWhile_cons, hfp]
        · rcases ih d h with ⟨h1, h2⟩
          refine ⟨h1, ?_⟩
          simp [List.takeWhile_cons, hfp, h2]
      · rw [if_neg hcb] at hd
        rcases List.mem_cons.mp hd with h | h
        · subst h
          simp [List.takeWhile_cons, hfp]
        · simp at h

/-- C6: fingerprint semantics in both enumerators.  Garmin: the enumeration
equals the enumeration of the sorted file list truncated just before the
first fingerprint match, so neither the matching dive nor any older one is
delivered, and a match on the newest file yields zero callbacks.  Oceans S1:
every delivered dive has a fingerprint different from the stored one and
precedes the first match in the (newest-first) dive list; a match on the
newest dive yields zero callbacks. -/
theorem C6_fingerprint_halt :
    (∀ (fp : List Nat) (entries : List GFile) (cb : List Nat → List Nat → Bool),
      garmin_device_foreach fp entries cb =
        (.success, garmin_foreach_loop cb
          ((get_file_list entries).takeWhile (fun f => f.fname != fp)))) ∧
    (∀ (fp : List Nat) (entries : List GFile) (cb : List Nat → List Nat → Bool)
        (f : GFile) (rest : List GFile),
      get_file_list entries = f :: rest → f.fname = fp →
      (garmin_device_foreach fp entries cb).2 = []) ∧
    (∀ (fp : List Nat) (divelist : List S1Dive) (cb : S1Dive → Bool),
      ∀ d ∈ (oceans_s1_device_foreach fp divelist cb).2,
        d.fingerprint ≠ fp ∧
        d ∈ divelist.takeWhile (fun x => x.fingerprint != fp)) ∧
    (∀ (fp : List Nat) (cb : S1Dive → Bool) (d : S1Dive) (rest : List S1Dive),
      d.fingerprint = fp →
      (oceans_s1_device_foreach fp (d :: rest) cb).2 = []) := by
  have hG : ∀ (fp : List Nat) (entries : List GFile)
      (cb : List Nat → List Nat → Bool),
      garmin_device_foreach fp entries cb =
        (.success, garmin_foreach_loop cb
          ((get_file_list entries).takeWhile (fun f => f.fname != fp))) := by
    intro fp entries cb
    simp only [garmin_device_foreach, cut_at_fingerprint_eq_takeWhile]
  refine ⟨hG, ?_, ?_, ?_⟩
  · intro fp entries cb f rest hlist hname
    rw [hG]
    simp [hlist, List.takeWhile_cons, hname, garmin_foreach_loop]
  · intro fp divelist cb d hd
    exact s1_foreach_loop_spec fp cb divelist d hd
  · intro fp cb d rest hname
    simp [oceans_s1_device_foreach, s1_foreach_loop, hname]

/-- C6 witness: at a concrete two-dive S1 log whose newest dive carries the
stored fingerprint, zero dives are delivered. -/
theorem C6_fingerprint_halt_witness :
    (oceans_s1_device_foreach [7] [⟨2, [7], []⟩, ⟨1, [5], []⟩]
      (fun _ => true)).2 = [] :=
  C6_fingerprint_halt.2.2.2 [7] (fun _ => true) ⟨2, [7], []⟩ [⟨1, [5], []⟩] rfl

/-! ## C9 — tank pressure samples -/

lemma garmin_event_dive (g : GarminParser) (e t gr d u : Nat) :
    (garmin_event g e t gr d u).1.dive = g.dive := by
  unfold garmin_event
  repeat' split
  all_goals simp

lemma find_tank_index_congr (g g' : GarminParser) (id : Nat)
    (h : g'.dive = g.dive) : find_tank_index g' id = find_tank_index g id := by
  unfold find_tank_index
  rw [h]

lemma find_tank_index_from_not_found (id : Nat) :
    ∀ (l : List GarminSensor) (i : Nat), (∀ s ∈ l, s.sensor_id ≠ id) →
      find_tank_index_from l id i = none := by
  intro l
  induction l with
  | nil => intro i _; rfl
  | cons s rest ih =>
    intro i h
    rw [find_tank_index_from, if_neg (h s (by simp))]
    exact ih (i + 1) (fun x hx => h x (by simp [hx]))

lemma find_tank_index_from_found (id : Nat) :
    ∀ (l : List GarminSensor) (i : Nat),
      l.any (fun s => s.sensor_id == id) →
      find_tank_index_from l id i =
        some (i + l.findIdx (fun s => s.sensor_id == id)) := by
  intro l
  induction l with
  | nil => intro i h; simp at h
  | cons s rest ih =>
    intro i h
    by_cases hs : s.sensor_id = id
    · rw [find_tank_index_from, if_pos hs, List.findIdx_cons]
      simp [hs]
    · rw [find_tank_index_from, if_neg hs, List.findIdx_cons]
      have hb : (s.sensor_id == id) = false := by simpa using hs
      have hrest : rest.any (fun s => s.sensor_id == id) := by
        simpa [List.any_cons, hb] using h
      rw [ih (i + 1) hrest]
      simp [hb]
      omega

/-- C9: when a TankUpdate is pending on the callback pass, exactly one
Pressure sample with value `pressure/100` bar is emitted, never dropped; its
tank index is the position of the record's sensor ID among the registered
sensors (`i < nr_sensor`), and 0 when no registered sensor matches. -/
theorem C9_tank_pressure (g : GarminParser) (hcb : g.hasCallback = true)
    (hpend : g.record_data.pending &&& RECORD_TANK_UPDATE ≠ 0) :
    (DcSample.pressure (find_tank_index g g.record_data.sensor)
        ((g.record_data.pressure : ℚ) / 100) ∈ (flush_pending_record g).2) ∧
    (∀ id, (∀ s ∈ g.dive.sensor.take g.dive.nr_sensor, s.sensor_id ≠ id) →
      find_tank_index g id = 0) ∧
    (∀ id, (g.dive.sensor.take g.dive.nr_sensor).any
        (fun s => s.sensor_id == id) →
      find_tank_index g id =
        (g.dive.sensor.take g.dive.nr_sensor).findIdx
          (fun s => s.sensor_id == id)) := by
  refine ⟨?_, ?_, ?_⟩
  · by_cases hdeco : g.record_data.pending &&& RECORD_DECO ≠ 0 <;>
    by_cases hev : g.record_data.pending &&& RECORD_EVENT ≠ 0 <;>
    by_cases hsp : g.record_data.pending &&& RECORD_SETPOINT_CHANGE ≠ 0 <;>
      simp [flush_pending_record, hcb, hpend, hdeco, hev, hsp,
        find_tank_index, garmin_event_dive, List.mem_append]
  · intro id h
    unfold find_tank_index
    rw [find_tank_index_from_not_found id _ 0 h]
    rfl
  · intro id h
    unfold find_tank_index
    rw [find_tank_index_from_found id _ 0 h]
    simp

/-- C9 witness: a concrete state with one registered tank-pod sensor and a
pending update from an unregistered sensor ID: the Pressure sample goes out
with tank index 0. -/
def c9_g : GarminParser :=
  { hasCallback := true,
    record_data :=
      { pending := RECORD_TANK_UPDATE,
        sensor := 99,
        pressure := 1850 },
    dive :=
      { nr_sensor := 1,
        sensor := ({ sensor_id := 42 } : GarminSensor) ::
          List.replicate (MAX_SENSORS - 1) {} } }

theorem C9_tank_pressure_witness :
    DcSample.pressure (find_tank_index c9_g c9_g.record_data.sensor)
        ((c9_g.record_data.pressure : ℚ) / 100) ∈
      (flush_pending_record c9_g).2 ∧
    find_tank_index c9_g 99 = 0 :=
  ⟨(C9_tank_pressure c9_g rfl (by decide)).1,
   (C9_tank_pressure c9_g rfl (by decide)).2.1 99 (by decide)⟩

/-! ## C10 — only recognised dives are delivered -/

lemma garmin_foreach_loop_only_dives (cb : List Nat → List Nat → Bool) :
    ∀ l : List GFile, ∀ d ∈ garmin_foreach_loop cb l,
      garmin_parser_is_dive d.1 = true := by
  intro l
  induction l with
  | nil => intro d hd; simp [garmin_foreach_loop] at hd
  | cons f rest ih =>
    intro d hd
    rw [garmin_foreach_loop] at hd
    by_cases hdive : garmin_parser_is_dive (f.fname ++ f.content)
    · rw [if_neg (by simp [hdive])] at hd
      by_cases hcb : cb (f.fname ++ f.content) f.fname
      · rw [if_pos hcb] at hd
        rcases List.mem_cons.mp hd with h | h
        · subst h; exact hdive
        · exact ih d h
      · rw [if_neg hcb] at hd
        rcases List.mem_cons.mp hd with h | h
        · subst h; exact hdive
        · simp at h
    · rw [if_pos (by simp [hdive])] at hd
      exact ih d hd

/-- C10: every dive the Garmin filesystem foreach delivers is recognised by
`garmin_parser_is_dive`; a file that is not recognised produces neither a
callback nor an error (the enumeration status stays `Success`); and
recognition is exactly: SPORT sub_sport ∈ {53,54,55,56,57,63}, or a nonzero
DIVE_SUMMARY average depth. -/
theorem C10_foreach_only_dives (fp : List Nat) (entries : List GFile)
    (cb : List Nat → List Nat → Bool) :
    (∀ d ∈ (garmin_device_foreach fp entries cb).2,
      garmin_parser_is_dive d.1 = true) ∧
    (garmin_device_foreach fp entries cb).1 = .success ∧
    (∀ input, garmin_parser_is_dive input = true ↔
      ((garmin_parser_set_data input).2.dive.sub_sport ∈
          ([53, 54, 55, 56, 57, 63] : List Nat) ∨
       (garmin_parser_set_data input).2.cache.AVGDEPTH ≠ 0)) := by
  refine ⟨?_, rfl, ?_⟩
  · intro d hd
    exact garmin_foreach_loop_only_dives cb _ d hd
  · intro input
    rcases hsd : garmin_parser_set_data input with ⟨st, g⟩
    simp only [garmin_parser_is_dive, hsd]
    by_cases h : g.dive.sub_sport = 53 ∨ g.dive.sub_sport = 54 ∨
        g.dive.sub_sport = 55 ∨ g.dive.sub_sport = 56 ∨
        g.dive.sub_sport = 57 ∨ g.dive.sub_sport = 63
    · rw [if_pos h]
      simp [h]
    · rw [if_neg h]
      simp only [List.mem_cons, List.mem_singleton, bne_iff_ne]
      constructor
      · intro hne
        right
        simpa using hne
      · intro hor
        rcases hor with hor | hne
        · exact absurd (by tauto) h
        · simpa using hne

/-- C10 witness: the recognition criterion applied to the empty input. -/
theorem C10_foreach_only_dives_witness :
    ¬ garmin_parser_is_dive [] = true := by
  intro hc
  rcases ((C10_foreach_only_dives [] [] (fun _ _ => true)).2.2 []).mp hc
    with h | h
  · revert h; decide
  · revert h; decide

/-! ## C5 — monotone Time samples

The only emitter of `DC_SAMPLE_TIME` is `parse_ANY_timestamp`, which refuses
relative times below the `record_data.time` marker and bumps the marker to
`t + 1` exactly when it emits `Time(t)`.  The invariant `TimeSpan t0 t1 out`
captures one decode step: the marker never decreases, and the Time samples
emitted by the step are strictly increasing within the window `[t0, t1)`. -/

def timesOf (l : List DcSample) : List Nat :=
  l.filterMap (fun s => match s with | .time t => some t | _ => none)

def TimeSpan (t0 t1 : Nat) (out : List DcSample) : Prop :=
  t0 ≤ t1 ∧ List.Chain' (· < ·) (timesOf out) ∧
    ∀ t ∈ timesOf out, t0 ≤ t ∧ t < t1

lemma timesOf_append (a b : List DcSample) :
    timesOf (a ++ b) = timesOf a ++ timesOf b :=
  List.filterMap_append a b _

lemma timeSpan_stationary {t : Nat} {out : List DcSample}
    (h : timesOf out = []) : TimeSpan t t out := by
  refine ⟨le_refl t, ?_, ?_⟩
  · rw [h]; exact List.chain'_nil
  · rw [h]; intro t ht; simp at ht

lemma mem_of_getLast?' {α : Type} {l : List α} {x : α}
    (h : x ∈ l.getLast?) : x ∈ l := by
  rcases List.mem_getLast?_eq_getLast h with ⟨hne, rfl⟩
  exact List.getLast_mem hne

lemma TimeSpan.append {t0 t1 t2 : Nat} {o1 o2 : List DcSample}
    (h1 : TimeSpan t0 t1 o1) (h2 : TimeSpan t1 t2 o2) :
    TimeSpan t0 t2 (o1 ++ o2) := by
  obtain ⟨hle1, hc1, hb1⟩ := h1
  obtain ⟨hle2, hc2, hb2⟩ := h2
  refine ⟨le_trans hle1 hle2, ?_, ?_⟩
  · rw [timesOf_append]
    rw [List.chain'_append]
    refine ⟨hc1, hc2, ?_⟩
    intro x hx y hy
    have hx' := hb1 x (mem_of_getLast?' hx)
    have hy' := hb2 y (List.mem_of_mem_head? hy)
    omega
  · rw [timesOf_append]
    intro t ht
    rcases List.mem_append.mp ht with h | h
    · have := hb1 t h
      omega
    · have := hb2 t h
      omega

/-- The per-handler invariant. -/
def HandlerTime (h : GarminHandler) : Prop :=
  ∀ g v, TimeSpan g.record_data.time ((h g v).1).record_data.time (h g v).2

lemma handlerTime_of_stationary (h : GarminHandler)
    (hp : ∀ g v, ((h g v).1).record_data.time = g.record_data.time ∧
      timesOf (h g v).2 = []) : HandlerTime h := by
  intro g v
  rw [(hp g v).1]
  exact timeSpan_stationary (hp g v).2

lemma handlerTime_timestamp : HandlerTime parse_ANY_timestamp := by
  intro g v
  unfold parse_ANY_timestamp
  split
  · split
    · exact timeSpan_stationary rfl
    · split
      · exact timeSpan_stationary rfl
      · next hlt =>
        show TimeSpan g.record_data.time (v.toNat - g.dive.time + 1)
          [.time (v.toNat - g.dive.time)]
        refine ⟨by omega, by simp [timesOf], ?_⟩
        intro t ht
        simp [timesOf] at ht
        omega
  · exact timeSpan_stationary rfl

lemma handlerTime_message_index : HandlerTime parse_ANY_message_index :=
  handlerTime_of_stationary _ (fun _ _ => ⟨rfl, rfl⟩)

lemma handlerTime_part_index : HandlerTime parse_ANY_part_index :=
  handlerTime_of_stationary _ (fun _ _ => ⟨rfl, rfl⟩)

/-- Every handler installed in the message tables preserves the marker and
emits no Time sample. -/
lemma garmin_table_time : ∀ e ∈ garmin_field_table, HandlerTime e.2.2.2 := by
  intro e he
  fin_cases he <;>
  · refine handlerTime_of_stationary _ (fun g v => ⟨?_, ?_⟩) <;>
    first
      | rfl
      | (simp only [parse_FILE_file_type, parse_FILE_manufacturer,
          parse_FILE_product, parse_FILE_serial, parse_FILE_creation_time,
          parse_FILE_number, parse_FILE_other_time,
          parse_DEVICE_SETTINGS_utc_offset, parse_DEVICE_SETTINGS_time_offset,
          parse_SPORT_sub_sport, parse_SESSION_start_time,
          parse_SESSION_start_pos_lat, parse_SESSION_start_pos_long,
          parse_SESSION_nec_pos_lat, parse_SESSION_nec_pos_long,
          parse_SESSION_swc_pos_lat, parse_SESSION_swc_pos_long,
          parse_SESSION_exit_pos_lat, parse_SESSION_exit_pos_long,
          parse_LAP_start_time, parse_LAP_start_pos_lat,
          parse_LAP_start_pos_long, parse_LAP_end_pos_lat,
          parse_LAP_end_pos_long, parse_LAP_some_pos_lat,
          parse_LAP_some_pos_long, parse_LAP_other_pos_lat,
          parse_LAP_other_pos_long, parse_RECORD_position_lat,
          parse_RECORD_position_long, parse_RECORD_altitude,
          parse_RECORD_heart_rate, parse_RECORD_distance,
          parse_RECORD_temperature, parse_RECORD_abs_pressure,
          parse_RECORD_depth, parse_RECORD_next_stop_depth,
          parse_RECORD_next_stop_time, parse_RECORD_tts, parse_RECORD_ndl,
          parse_RECORD_cns_load, parse_RECORD_n2_load,
          parse_RECORD_air_time_remaining, parse_RECORD_pressure_sac,
          parse_RECORD_volume_sac, parse_RECORD_rmv, parse_RECORD_ascent_rate,
          parse_EVENT_event, parse_EVENT_type, parse_EVENT_data,
          parse_EVENT_event_group, parse_EVENT_unknown,
          parse_EVENT_tank_pressure_reserve, parse_EVENT_tank_pressure_critical,
          parse_EVENT_tank_pressure_lost, parse_DEVICE_INFO_device_index,
          parse_DEVICE_INFO_serial_nr, parse_DEVICE_INFO_product,
          parse_DEVICE_INFO_firmware, parse_SENSOR_PROFILE_ant_channel_id,
          parse_SENSOR_PROFILE_name, parse_SENSOR_PROFILE_enabled,
          parse_SENSOR_PROFILE_sensor_type, parse_SENSOR_PROFILE_pressure_units,
          parse_SENSOR_PROFILE_rated_pressure,
          parse_SENSOR_PROFILE_reserve_pressure, parse_SENSOR_PROFILE_volume,
          parse_SENSOR_PROFILE_used_for_gas_rate, parse_DIVE_SETTINGS_name,
          parse_DIVE_SETTINGS_model, parse_DIVE_SETTINGS_gf_low,
          parse_DIVE_SETTINGS_gf_high, parse_DIVE_SETTINGS_water_type,
          parse_DIVE_SETTINGS_water_density, parse_DIVE_SETTINGS_po2_warn,
          parse_DIVE_SETTINGS_po2_critical, parse_DIVE_SETTINGS_po2_deco,
          parse_DIVE_SETTINGS_safety_stop_enabled,
          parse_DIVE_SETTINGS_bottom_depth, parse_DIVE_SETTINGS_bottom_time,
          parse_DIVE_SETTINGS_apnea_countdown_enabled,
          parse_DIVE_SETTINGS_apnea_countdown_time,
          parse_DIVE_SETTINGS_backlight_mode,
          parse_DIVE_SETTINGS_backlight_brightness,
          parse_DIVE_SETTINGS_backlight_timeout,
          parse_DIVE_SETTINGS_repeat_dive_interval,
          parse_DIVE_SETTINGS_safety_stop_time,
          parse_DIVE_SETTINGS_heart_rate_source_type,
          parse_DIVE_SETTINGS_heart_rate_device_type,
          parse_DIVE_SETTINGS_setpoint_low_cbar,
          parse_DIVE_SETTINGS_setpoint_low_switch_depth_mm,
          parse_DIVE_SETTINGS_setpoint_high_cbar,
          parse_DIVE_SETTINGS_setpoint_high_switch_depth_mm,
          parse_DIVE_GAS_helium, parse_DIVE_GAS_oxygen, parse_DIVE_GAS_status,
          parse_DIVE_SUMMARY_avg_depth, parse_DIVE_SUMMARY_max_depth,
          parse_DIVE_SUMMARY_surface_interval, parse_DIVE_SUMMARY_start_cns,
          parse_DIVE_SUMMARY_end_cns, parse_DIVE_SUMMARY_start_n2,
          parse_DIVE_SUMMARY_end_n2, parse_DIVE_SUMMARY_o2_toxicity,
          parse_DIVE_SUMMARY_dive_number, parse_DIVE_SUMMARY_bottom_time,
          parse_DIVE_SUMMARY_avg_pressure_sac, parse_DIVE_SUMMARY_avg_volume_sac,
          parse_DIVE_SUMMARY_avg_rmv, parse_TANK_UPDATE_sensor,
          parse_TANK_UPDATE_pressure, parse_TANK_SUMMARY_sensor,
          parse_TANK_SUMMARY_start_pressure, parse_TANK_SUMMARY_end_pressure,
          parse_TANK_SUMMARY_volume_used]
         split <;> rfl)

lemma handlerTime_apply (d : FitFieldDecl) (h : GarminHandler)
    (hh : HandlerTime h) (g : GarminParser) (bt : Nat) (p : List Nat) :
    TimeSpan g.record_data.time
      ((apply_field_desc d h g bt p).1).record_data.time
      (apply_field_desc d h g bt p).2 := by
  unfold apply_field_desc
  split
  · exact timeSpan_stationary rfl
  · split
    · exact timeSpan_stationary rfl
    · exact hh g _

lemma handlerTime_dispatch (msg fnr : Nat) (d : FitFieldDecl)
    (h : GarminHandler) (hd : field_dispatch msg fnr = some (d, h)) :
    HandlerTime h := by
  unfold field_dispatch at hd
  split at hd
  · simp only [Option.some.injEq, Prod.mk.injEq] at hd
    rw [← hd.2]
    exact handlerTime_part_index
  · split at hd
    · simp only [Option.some.injEq, Prod.mk.injEq] at hd
      rw [← hd.2]
      exact handlerTime_timestamp
    · split at hd
      · simp only [Option.some.injEq, Prod.mk.injEq] at hd
        rw [← hd.2]
        exact handlerTime_message_index
      · unfold msg_field at hd
        rcases hfind : garmin_field_table.find?
            (fun e => e.1 == msg && e.2.1 == fnr) with _ | e
        · rw [hfind] at hd
          simp at hd
        · rw [hfind] at hd
          simp only [Option.map_some', Option.some.injEq] at hd
          have hmem := List.mem_of_find?_eq_some hfind
          have ht := garmin_table_time e hmem
          have : e.2.2.2 = h := congrArg Prod.snd hd
          rw [← this]
          exact ht

lemma traverse_fields_time (msg : Nat) :
    ∀ (fields : List (Nat × Nat × Nat)) (g : GarminParser) (data : List Nat)
      (size total_len : Nat),
      TimeSpan g.record_data.time
        ((traverse_fields msg g data size total_len fields).1).record_data.time
        (traverse_fields msg g data size total_len fields).2.2 := by
  intro fields
  induction fields with
  | nil =>
    intro g data size tl
    exact timeSpan_stationary rfl
  | cons fld rest ih =>
    obtain ⟨field_nr, len, bt_raw⟩ := fld
    intro g data size tl
    simp only [traverse_fields]
    by_cases h1 : len = 0
    · rw [if_pos h1]
      exact timeSpan_stationary rfl
    rw [if_neg h1]
    by_cases h2 : size < len
    · rw [if_pos h2]
      exact timeSpan_stationary rfl
    rw [if_neg h2]
    by_cases h3 : bt_raw &&& 0x7f > 16
    · rw [if_pos h3]
      exact ih g (data.drop size) size (tl + size)
    rw [if_neg h3]
    by_cases h4 : len % base_type_size (bt_raw &&& 0x7f) ≠ 0
    · rw [if_pos h4]
      exact timeSpan_stationary rfl
    rw [if_neg h4]
    by_cases h5 : bt_raw &&& 0x7f = 7 ∧
        ((data.take size).findIdx (fun b => b == 0) ≥ size ∨
         len ≤ (data.take size).findIdx (fun b => b == 0))
    · rw [if_pos h5]
      exact timeSpan_stationary rfl
    rw [if_neg h5]
    rcases hdisp : field_dispatch msg field_nr with _ | ⟨d, hh⟩
    · simp only [hdisp]
      rcases hrec : traverse_fields msg g (data.drop len) (size - len)
          (tl + len) rest with ⟨g2, res2, out2⟩
      simp only [hrec]
      have t2 := ih g (data.drop len) (size - len) (tl + len)
      rw [hrec] at t2
      simpa using t2
    · simp only [hdisp]
      rcases happ : apply_field_desc d hh g (bt_raw &&& 0x7f) data
        with ⟨g1, out1⟩
      simp only [happ]
      rcases hrec : traverse_fields msg g1 (data.drop len) (size - len)
          (tl + len) rest with ⟨g2, res2, out2⟩
      simp only [hrec]
      have t1 := handlerTime_apply d hh
        (handlerTime_dispatch msg field_nr d hh hdisp) g (bt_raw &&& 0x7f) data
      rw [happ] at t1
      have t2 := ih g1 (data.drop len) (size - len) (tl + len)
      rw [hrec] at t2
      exact TimeSpan.append t1 t2

lemma traverse_definition_rdtime (g : GarminParser) (data : List Nat)
    (record : Nat) :
    ((traverse_definition g data record).1).record_data.time
      = g.record_data.time := by
  simp only [traverse_definition]
  repeat' split
  all_goals rfl

lemma garmin_event_rdtime (g : GarminParser) (e t gr d u : Nat) :
    (garmin_event g e t gr d u).1.record_data.time = g.record_data.time := by
  unfold garmin_event
  repeat' split
  all_goals simp

lemma garmin_event_times (g : GarminParser) (e t gr d u : Nat) :
    timesOf (garmin_event g e t gr d u).2 = [] := by
  unfold garmin_event
  repeat' split
  all_goals simp [timesOf]

lemma flush_nc_gasmix_rd (p : Nat) (r : RecordData) (g : GarminParser) :
    (flush_nc_gasmix p r g).record_data = g.record_data := by
  unfold flush_nc_gasmix
  repeat' split
  all_goals rfl

lemma flush_nc_device_info_rd (p : Nat) (r : RecordData) (g : GarminParser) :
    (flush_nc_device_info p r g).record_data = g.record_data := by
  unfold flush_nc_device_info
  split <;> rfl

lemma flush_nc_deco_model_rd (p : Nat) (r : RecordData) (g : GarminParser) :
    (flush_nc_deco_model p r g).record_data = g.record_data := by
  unfold flush_nc_deco_model
  split <;> rfl

lemma flush_nc_sensor_profile_rd (p : Nat) (r : RecordData) (g : GarminParser) :
    (flush_nc_sensor_profile p r g).record_data = g.record_data := by
  unfold flush_nc_sensor_profile
  repeat' split
  all_goals rfl

lemma flush_rdtime (g : GarminParser) :
    ((flush_pending_record g).1).record_data.time = g.record_data.time := by
  simp only [flush_pending_record]
  split
  · simp [flush_nc_sensor_profile_rd, flush_nc_deco_model_rd,
      flush_nc_device_info_rd, flush_nc_gasmix_rd]
  · repeat' split
    all_goals simp_all [garmin_event_rdtime]

lemma timesOf_nil : timesOf [] = [] := rfl

lemma timesOf_deco (k : DcDecoType) (t : Int) (d : ℚ) :
    timesOf [DcSample.deco k t d] = [] := rfl

lemma timesOf_pressure (a : Nat) (b : ℚ) :
    timesOf [DcSample.pressure a b] = [] := rfl

lemma timesOf_setpoint (v : ℚ) : timesOf [DcSample.setpoint v] = [] := rfl

lemma flush_times (g : GarminParser) :
    timesOf (flush_pending_record g).2 = [] := by
  simp only [flush_pending_record]
  split
  · rfl
  · repeat' split
    all_goals
      simp only [timesOf_append, garmin_event_times, timesOf_deco,
        timesOf_pressure, timesOf_setpoint, timesOf_nil, List.append_nil,
        List.nil_append]

lemma flush_time_span (g : GarminParser) :
    TimeSpan g.record_data.time
      ((flush_pending_record g).1).record_data.time
      (flush_pending_record g).2 := by
  rw [flush_rdtime]
  exact timeSpan_stationary (flush_times g)

lemma traverse_records_time :
    ∀ (fuel : Nat) (g : GarminParser) (data : List Nat) (datasize time : Nat),
      TimeSpan g.record_data.time
        ((traverse_records fuel g data datasize time).2.1).record_data.time
        (traverse_records fuel g data datasize time).2.2 := by
  intro fuel
  induction fuel with
  | zero =>
    intro g data datasize time
    exact timeSpan_stationary rfl
  | succ n ih =>
    intro g data datasize time
    simp only [traverse_records]
    by_cases h0 : datasize = 0
    · rw [if_pos h0]
      exact timeSpan_stationary rfl
    rw [if_neg h0]
    by_cases hbit : data.getD 0 0 &&& 0x80 ≠ 0
    · rw [if_pos hbit]
      exact timeSpan_stationary rfl
    rw [if_neg hbit]
    by_cases hdef : data.getD 0 0 &&& 0x40 ≠ 0
    · rw [if_pos hdef]
      rcases hd : traverse_definition g (data.drop 1) (data.getD 0 0)
        with ⟨g1, res1⟩
      have hg1 : g1.record_data.time = g.record_data.time := by
        have h := traverse_definition_rdtime g (data.drop 1) (data.getD 0 0)
        simp only [hd] at h
        exact h
      rcases res1 with _ | len
      · simp only [hd]
        rw [← hg1]
        exact timeSpan_stationary rfl
      · simp only [hd]
        by_cases hlen : len = 0 ∨ len > datasize - 1
        · rw [if_pos hlen]
          rw [← hg1]
          exact timeSpan_stationary rfl
        rw [if_neg hlen]
        by_cases hfl : g1.record_data.pending ≠ 0
        · rw [if_pos hfl]
          rcases hfq : flush_pending_record g1 with ⟨g2, out2⟩
          simp only [hfq]
          rcases hrec : traverse_records n g2 ((data.drop 1).drop len)
              (datasize - 1 - len) time with ⟨st3, g3, out3⟩
          simp only [hrec]
          have t1 : TimeSpan g.record_data.time g1.record_data.time
              ([] : List DcSample) := by
            rw [hg1]
            exact timeSpan_stationary rfl
          have t2 := flush_time_span g1
          simp only [hfq] at t2
          have t3 := ih g2 ((data.drop 1).drop len) (datasize - 1 - len) time
          simp only [hrec] at t3
          exact TimeSpan.append (TimeSpan.append t1 t2) t3
        · rw [if_neg hfl]
          rcases hrec : traverse_records n g1 ((data.drop 1).drop len)
              (datasize - 1 - len) time with ⟨st3, g3, out3⟩
          simp only [hrec]
          have t1 : TimeSpan g.record_data.time g1.record_data.time
              ([] : List DcSample) := by
            rw [hg1]
            exact timeSpan_stationary rfl
          have t3 := ih g1 ((data.drop 1).drop len) (datasize - 1 - len) time
          simp only [hrec] at t3
          exact TimeSpan.append
            (TimeSpan.append t1 (timeSpan_stationary timesOf_nil)) t3
    · rw [if_neg hdef]
      rcases htd : g.type_desc.getD (data.getD 0 0 &&& 0xf) none with _ | desc
      · simp only [htd]
        exact timeSpan_stationary rfl
      · simp only [htd]
        rcases htf : traverse_fields desc.msg g (data.drop 1) (datasize - 1) 0
            desc.fields with ⟨g1, res1, out1⟩
        have t1 := traverse_fields_time desc.msg desc.fields g (data.drop 1)
          (datasize - 1) 0
        simp only [htf] at t1
        rcases res1 with _ | len
        · simp only [htf]
          exact t1
        · simp only [htf]
          by_cases hlen : len = 0 ∨ len > datasize - 1
          · rw [if_pos hlen]
            exact t1
          rw [if_neg hlen]
          by_cases hfl : g1.record_data.pending ≠ 0
          · rw [if_pos hfl]
            rcases hfq : flush_pending_record g1 with ⟨g2, out2⟩
            simp only [hfq]
            rcases hrec : traverse_records n g2 ((data.drop 1).drop len)
                (datasize - 1 - len) time with ⟨st3, g3, out3⟩
            simp only [hrec]
            have t2 := flush_time_span g1
            simp only [hfq] at t2
            have t3 := ih g2 ((data.drop 1).drop len) (datasize - 1 - len) time
            simp only [hrec] at t3
            exact TimeSpan.append (TimeSpan.append t1 t2) t3
          · rw [if_neg hfl]
            rcases hrec : traverse_records n g1 ((data.drop 1).drop len)
                (datasize - 1 - len) time with ⟨st3, g3, out3⟩
            simp only [hrec]
            have t3 := ih g1 ((data.drop 1).drop len) (datasize - 1 - len) time
            simp only [hrec] at t3
            exact TimeSpan.append
              (TimeSpan.append t1 (timeSpan_stationary timesOf_nil)) t3

lemma traverse_data_chain (g : GarminParser) (input : List Nat) :
    List.Chain' (· < ·) (timesOf (traverse_data g input).2.2) := by
  simp only [traverse_data]
  by_cases h1 : input.length < FIT_NAME_SIZE
  · rw [if_pos h1]
    exact List.chain'_nil
  rw [if_neg h1]
  by_cases h2 : input.length - FIT_NAME_SIZE < 12
  · rw [if_pos h2]
    exact List.chain'_nil
  rw [if_neg h2]
  by_cases h3 : ¬((input.drop FIT_NAME_SIZE).getD 8 0 = 0x2E ∧
      (input.drop FIT_NAME_SIZE).getD 9 0 = 0x46 ∧
      (input.drop FIT_NAME_SIZE).getD 10 0 = 0x49 ∧
      (input.drop FIT_NAME_SIZE).getD 11 0 = 0x54)
  · rw [if_pos h3]
    exact List.chain'_nil
  rw [if_neg h3]
  by_cases h4 : ((input.drop FIT_NAME_SIZE).getD 0 0 < 12 ∨
      array_uint32_le ((input.drop FIT_NAME_SIZE).drop 4) >
        input.length - FIT_NAME_SIZE ∨
      array_uint32_le ((input.drop FIT_NAME_SIZE).drop 4) +
        (input.drop FIT_NAME_SIZE).getD 0 0 + 2 >
        input.length - FIT_NAME_SIZE)
  · rw [if_pos h4]
    exact List.chain'_nil
  rw [if_neg h4]
  exact (traverse_records_time _ _ _ _ _).2.1

/-- C5: within one `samples_foreach`, the emitted `Time` samples are
monotonically non-decreasing (in fact strictly increasing, since the code
refuses to re-emit an already-emitted second); a data-record timestamp whose
dive-relative time is below the `record_data.time` marker emits nothing and
changes nothing; and the marker is updated only when a `Time` sample is
actually emitted. -/
theorem C5_time_monotonicity :
    (∀ (g : GarminParser) (input : List Nat),
      List.Chain' (· ≤ ·)
        (timesOf (garmin_parser_samples_foreach g input).2.2)) ∧
    (∀ (g : GarminParser) (v : Int), g.hasCallback = true →
      g.dive.time ≤ v.toNat →
      v.toNat - g.dive.time < g.record_data.time →
      parse_ANY_timestamp g v = (g, [])) ∧
    (∀ (g : GarminParser) (v : Int), (parse_ANY_timestamp g v).2 = [] →
      (parse_ANY_timestamp g v).1 = g) := by
  refine ⟨?_, ?_, ?_⟩
  · intro g input
    exact List.Chain'.imp (fun a b h => le_of_lt h)
      (traverse_data_chain { g with hasCallback := true } input)
  · intro g v hcb hge hlt
    unfold parse_ANY_timestamp
    rw [if_pos hcb, if_neg (by omega), if_pos hlt]
  · intro g v
    unfold parse_ANY_timestamp
    split
    · split
      · intro _
        rfl
      · split
        · intro _
          rfl
        · intro hc
          simp at hc
    · intro _
      rfl

/-- A parser state whose marker is already at 5. -/
def c5_g : GarminParser :=
  { hasCallback := true, record_data := { time := 5 } }

/-- C5 witness: the guard applied at a concrete state — relative time 3 is
below the marker 5, so nothing is emitted and nothing changes. -/
theorem C5_time_monotonicity_witness :
    parse_ANY_timestamp c5_g 3 = (c5_g, []) :=
  C5_time_monotonicity.2.1 c5_g 3 rfl (by decide) (by decide)

end LibDC
